import Mathlib

/-!
Shallow embedding of `drivers/gpu/drm/amd/display/amdgpu_dm/amdgpu_dm_color.c`
(the DRM-to-DC color management translation layer) and proofs about its
behaviour.  Pure C helpers become Lean functions; the mutable
`dc_stream_state` / `dm_crtc_state` / `dc_plane_state` objects become records
threaded explicitly through the orchestrator functions.  External collaborators
that are part of the kernel but not of this translation unit (the DC
fixed-point library, the color-math module, the MPC 3D-LUT pool) are modelled
from the specification and marked as such in their doc comments.
-/

/-! ## Hardware size constants

`MAX_DRM_LUT_VALUE` is defined in the source file itself; the three LUT size
constants come from the DC headers (legacy curve 256 entries, standard "full"
curve 4096 entries, 3D LUT 17x17x17 = 4913 entries, as stated by the spec). -/

def MAX_DRM_LUT_VALUE : Nat := 0xFFFF

def MAX_COLOR_LUT_ENTRIES : Nat := 4096

def MAX_COLOR_LEGACY_LUT_ENTRIES : Nat := 256

def MAX_COLOR_3DLUT_ENTRIES : Nat := 4913

/-- Linux error number `EINVAL`; the C code returns `-EINVAL`. -/
def EINVAL : Int := 22

/-- Linux error number `ENOMEM`; the C code returns `-ENOMEM`. -/
def ENOMEM : Int := 12

/-- Modelled from the spec: `DC_ERROR_UNEXPECTED` is a member of the DC status
enumeration (DC core headers, not under `src/`), used by
`amdgpu_dm_atomic_shaper_lut3d` for a failed pool acquire/release
(ResourceAcquisitionFailed, "an internal/unexpected condition").  Its only
relevant property is being nonzero. -/
def DC_ERROR_UNEXPECTED : Int := -1

/-- One `struct drm_color_lut` entry: three unsigned 16-bit channel values. -/
structure DrmColorLut where
  red : Nat
  green : Nat
  blue : Nat
deriving DecidableEq, Repr

/-- `__is_lut_linear`: a LUT acts as a bypass ramp iff at every index the three
channels agree and the value is within ±1 of `i * 0xFFFF / (size-1)`
(C truncating integer division).  The C `for` loop with early `return false`
is embedded as `List.all` over `List.range size`; `lut[i]` becomes
`lut.getD i` (callers guarantee `size` entries).  For the sizes this driver
ever passes (at most 4913) the C `int`/`uint32_t` arithmetic never overflows,
so exact integer arithmetic is the precise semantics. -/
def __is_lut_linear (lut : List DrmColorLut) (size : Nat) : Bool :=
  (List.range size).all fun i =>
    let e := lut.getD i ⟨0, 0, 0⟩
    if e.red ≠ e.green ∨ e.green ≠ e.blue then false
    else
      let expected : Nat := i * MAX_DRM_LUT_VALUE / (size - 1)
      let delta : Int := (e.red : Int) - (expected : Int)
      if delta < -1 ∨ 1 < delta then false else true

/-- Nearest-integer rounding of the rational `num / den` (halves round up). -/
def round_div (num den : Nat) : Nat := (2 * num + den) / (2 * den)

/-- Claim-side notion of linearity, following the specification text: every
sample has equal channels and the common value is within ±1 of
`round(i * 65535 / (N-1))` with `round` meaning rounding to the nearest
integer. -/
def lut_linear_claim_round (lut : List DrmColorLut) : Prop :=
  ∀ i, i < lut.length →
    (lut.getD i ⟨0, 0, 0⟩).red = (lut.getD i ⟨0, 0, 0⟩).green ∧
    (lut.getD i ⟨0, 0, 0⟩).green = (lut.getD i ⟨0, 0, 0⟩).blue ∧
    (((lut.getD i ⟨0, 0, 0⟩).red : Int) -
      ((round_div (i * 65535) (lut.length - 1) : Nat) : Int)).natAbs ≤ 1

/-- Amended claim-side notion of linearity: as above but with the expected
value `i * 65535 / (N-1)` computed with truncating (floor) division, which is
what the C code computes. -/
def lut_linear_claim_floor (lut : List DrmColorLut) : Prop :=
  ∀ i, i < lut.length →
    (lut.getD i ⟨0, 0, 0⟩).red = (lut.getD i ⟨0, 0, 0⟩).green ∧
    (lut.getD i ⟨0, 0, 0⟩).green = (lut.getD i ⟨0, 0, 0⟩).blue ∧
    (((lut.getD i ⟨0, 0, 0⟩).red : Int) -
      ((i * 65535 / (lut.length - 1) : Nat) : Int)).natAbs ≤ 1

/-- A three-sample curve whose middle sample is `32766`: the code's expected
value at index 1 is `65535 / 2 = 32767` (truncated), so the delta is `-1` and
the detector accepts, while the nearest-integer expected value is `32768`,
distance `2`. -/
def lut_c2_cex : List DrmColorLut :=
  [⟨0, 0, 0⟩, ⟨32766, 32766, 32766⟩, ⟨65535, 65535, 65535⟩]

/-- A three-sample exact truncated ramp, used as a witness curve. -/
def lut_c2_wit : List DrmColorLut :=
  [⟨0, 0, 0⟩, ⟨32767, 32767, 32767⟩, ⟨65535, 65535, 65535⟩]

/-- C2: counterexample.  The claim states the detector returns true iff every
sample is within ±1 of the *rounded* expected value `round(i*65535/(N-1))`.
On the concrete curve `lut_c2_cex` (size 3) the detector returns true although
sample 1 is at distance 2 from the rounded expected value, refuting the
claimed equivalence. -/
theorem claim_c2_counterexample :
    __is_lut_linear lut_c2_cex 3 = true ∧ ¬ lut_linear_claim_round lut_c2_cex := by
  refine ⟨by decide, fun hP => ?_⟩
  have h1 := hP 1 (by decide)
  revert h1
  decide

/-- C2 (amended): for every curve of size `N > 1`, the linearity detector
returns true iff every sample has its three channels equal and the common
value within ±1 of the truncated expected value `i * 65535 / (N-1)`
(C integer division), i.e. iff `lut_linear_claim_floor` holds. -/
theorem claim_c2_linearity (lut : List DrmColorLut) (_h : 1 < lut.length) :
    __is_lut_linear lut lut.length = true ↔ lut_linear_claim_floor lut := by
  unfold __is_lut_linear lut_linear_claim_floor
  rw [List.all_eq_true]
  constructor
  · intro hall i hi
    have hmem := hall i (List.mem_range.mpr hi)
    revert hmem
    simp only [MAX_DRM_LUT_VALUE]
    split
    · intro hfalse; exact absurd hfalse (by simp)
    · rename_i hch
      push_neg at hch
      split
      · intro hfalse; exact absurd hfalse (by simp)
      · rename_i hdelta
        push_neg at hdelta
        refine fun _ => ⟨hch.1, hch.2, ?_⟩
        generalize (i * 65535 / (lut.length - 1) : Nat) = E at hdelta ⊢
        omega
  · intro hP i hmem
    have hi := List.mem_range.mp hmem
    obtain ⟨h1, h2, h3⟩ := hP i hi
    simp only [MAX_DRM_LUT_VALUE]
    split
    · rename_i hch
      rcases hch with hne | hne
      · exact absurd h1 hne
      · exact absurd h2 hne
    · split
      · rename_i hdelta
        generalize (i * 65535 / (lut.length - 1) : Nat) = E at hdelta h3
        omega
      · rfl

/-- C2 witness: the amended equivalence applied to the concrete size-3
truncated ramp `lut_c2_wit`, which the detector accepts. -/
theorem claim_c2_witness :
    1 < lut_c2_wit.length ∧
      (__is_lut_linear lut_c2_wit lut_c2_wit.length = true ↔
        lut_linear_claim_floor lut_c2_wit) :=
  ⟨by decide, claim_c2_linearity lut_c2_wit (by decide)⟩

/-! ## Fixed-point numerics (DC `fixed31_32` library)

The DC fixed-point type is a two's-complement S31.32 value; we represent it by
the mathematical integer `value` (the raw 64-bit payload read as signed), so
`1.0 = 2^32`. -/

/-- Modelled from the spec: `dc_fixpt_zero` of the DC fixed-point library (not
under `src/`). -/
def dc_fixpt_zero : Int := 0

/-- Modelled from the spec: `dc_fixpt_from_int` of the DC fixed-point library
(not under `src/`): an integer becomes the fixed-point value with that integer
part ("legacy de-normalized" conversion target, no fractional scaling). -/
def dc_fixpt_from_int (n : Nat) : Int := (n : Int) * 2 ^ 32

/-- Modelled from the spec: `dc_fixpt_from_fraction` of the DC fixed-point
library (not under `src/`): the fixed-point value nearest to `num / den`
(rounding half away from zero; arguments here are always nonnegative). -/
def dc_fixpt_from_fraction (num den : Nat) : Int :=
  ((num : Int) * 2 ^ 32 + (den : Int) / 2) / (den : Int)

/-- Modelled from the spec: `dc_fixpt_from_s3132` of the DC fixed-point
library (not under `src/`): reinterprets a sign-magnitude S31.32 64-bit word
(sign in bit 63, magnitude in bits 0-62) as a two's-complement fixed-point
value, i.e. negates the magnitude when the sign bit is set. -/
def dc_fixpt_from_s3132 (x : Nat) : Int :=
  let mag : Int := ((x % 2 ^ 63 : Nat) : Int)
  if x / 2 ^ 63 % 2 = 1 then -mag else mag

/-! ## Transfer-function and gamma enumerations -/

/-- `enum drm_transfer_function` (DRM uapi; the values this driver matches). -/
inductive DrmTransferFunction where
  | default
  | srgb
  | bt709
  | pq
  | linear
  | unity
  | hlg
  | gamma22
  | gamma24
  | gamma26
deriving DecidableEq, Repr

/-- `enum dc_transfer_func_predefined` (the members used by this file). -/
inductive DcTransferFuncPredefined where
  | srgb
  | bt709
  | pq
  | linear
  | unity
  | hlg
  | gamma22
  | gamma24
  | gamma26
deriving DecidableEq, Repr

/-- `enum dc_transfer_func_type` (the members used by this file). -/
inductive TfType where
  | predefined
  | distributed_points
  | bypass
deriving DecidableEq, Repr

/-- `drm_tf_to_dc_tf`: the fixed resolver table; `DEFAULT` (and anything
unrecognized, via the C `default:` label) maps to linear. -/
def drm_tf_to_dc_tf (drm_tf : DrmTransferFunction) : DcTransferFuncPredefined :=
  match drm_tf with
  | .default => .linear
  | .srgb => .srgb
  | .bt709 => .bt709
  | .pq => .pq
  | .linear => .linear
  | .unity => .unity
  | .hlg => .hlg
  | .gamma22 => .gamma22
  | .gamma24 => .gamma24
  | .gamma26 => .gamma26

/-- `enum gamma_type` tags of `struct dc_gamma` used by this file. -/
inductive GammaType where
  | gamma_rgb_256
  | gamma_custom
  | gamma_cs_tfm_1d
deriving DecidableEq, Repr

/-- Modelled from the spec: `drm_color_lut_extract` (DRM core helper, not
under `src/`): reduces a 16-bit channel sample to its top `bit_precision`
significant bits, rounding (with saturation) when precision is below 16. -/
def drm_color_lut_extract (user_input : Nat) (bit_precision : Nat) : Nat :=
  let max := 0xFFFF >>> (16 - bit_precision)
  if bit_precision < 16 then
    let v := user_input + 2 ^ (16 - bit_precision - 1)
    let v := if v > 0xFFFF then 0xFFFF else v
    min (v >>> (16 - bit_precision)) max
  else
    min (user_input >>> (16 - bit_precision)) max

/-- Per-channel converted entry arrays of `struct dc_gamma` (`entries.red`,
`entries.green`, `entries.blue`). -/
structure DcGammaEntries where
  red : List Int
  green : List Int
  blue : List Int
deriving DecidableEq, Repr

/-- `struct dc_gamma` (the fields this file uses). -/
structure DcGamma where
  type : GammaType
  num_entries : Nat
  entries : DcGammaEntries
deriving DecidableEq, Repr

/-- `__drm_lut_to_dc_gamma`: legacy mode converts the top 16 bits of each of
the first `MAX_COLOR_LEGACY_LUT_ENTRIES` samples to integer fixed point;
atomic (modern) mode converts each of the first `MAX_COLOR_LUT_ENTRIES`
samples to a fixed-point fraction of `MAX_DRM_LUT_VALUE`. -/
def __drm_lut_to_dc_gamma (lut : List DrmColorLut) (is_legacy : Bool) :
    DcGammaEntries :=
  if is_legacy then
    { red := (List.range MAX_COLOR_LEGACY_LUT_ENTRIES).map fun i =>
        dc_fixpt_from_int (drm_color_lut_extract (lut.getD i ⟨0, 0, 0⟩).red 16)
      green := (List.range MAX_COLOR_LEGACY_LUT_ENTRIES).map fun i =>
        dc_fixpt_from_int (drm_color_lut_extract (lut.getD i ⟨0, 0, 0⟩).green 16)
      blue := (List.range MAX_COLOR_LEGACY_LUT_ENTRIES).map fun i =>
        dc_fixpt_from_int (drm_color_lut_extract (lut.getD i ⟨0, 0, 0⟩).blue 16) }
  else
    { red := (List.range MAX_COLOR_LUT_ENTRIES).map fun i =>
        dc_fixpt_from_fraction
          (drm_color_lut_extract (lut.getD i ⟨0, 0, 0⟩).red 16) MAX_DRM_LUT_VALUE
      green := (List.range MAX_COLOR_LUT_ENTRIES).map fun i =>
        dc_fixpt_from_fraction
          (drm_color_lut_extract (lut.getD i ⟨0, 0, 0⟩).green 16) MAX_DRM_LUT_VALUE
      blue := (List.range MAX_COLOR_LUT_ENTRIES).map fun i =>
        dc_fixpt_from_fraction
          (drm_color_lut_extract (lut.getD i ⟨0, 0, 0⟩).blue 16) MAX_DRM_LUT_VALUE }

/-- `__drm_ctm_to_dc_matrix`: the DRM 3x3 sign-magnitude CTM (row-major, nine
S31.32 words) becomes a 3x4 two's-complement matrix; every fourth entry is the
injected zero column, the rest are converted from source index `i - i / 4`. -/
def __drm_ctm_to_dc_matrix (ctm : List Nat) : List Int :=
  (List.range 12).map fun i =>
    if i % 4 = 3 then dc_fixpt_zero
    else dc_fixpt_from_s3132 (ctm.getD (i - i / 4) 0)

/-! ## Transfer functions and the color-math module

A `struct dc_transfer_func` carries a type tag, a predefined-curve id and (for
the output function) an SDR reference white level.  The distributed-points
payload is filled by the external color-math module
(`mod_color_calculate_regamma_params` / `mod_color_calculate_degamma_params`,
`modules/color/color_gamma.c`, not under `src/`); we model that module by
recording, in a `CalcRecord`, which computation was requested and with which
user gamma, and by assuming it succeeds (its OutOfMemory failure is outside
the claims considered here). -/

/-- Which color-math entry point was invoked. -/
inductive CalcKind where
  | regamma
  | degamma
deriving DecidableEq, Repr

/-- Record of one color-math computation request: the entry point, the user
gamma handed over (`none` when the C code passes NULL), the `map_user_ramp`
argument and (for regamma) the `can_rom_be_used` argument. -/
structure CalcRecord where
  kind : CalcKind
  user_gamma : Option DcGamma
  map_user_ramp : Bool
  can_rom_be_used : Bool
deriving DecidableEq, Repr

/-- `struct dc_transfer_func` (the fields this file reads or writes), plus the
`curve_calc` record standing for its distributed-points payload. -/
structure DcTransferFunc where
  type : TfType
  tf : DcTransferFuncPredefined
  sdr_ref_white_level : Nat
  curve_calc : Option CalcRecord
deriving DecidableEq, Repr

/-- Modelled from the spec: `mod_color_calculate_regamma_params` of the
color-math module (not under `src/`).  It fills the transfer function's
distributed points from the given user gamma; we record the request and
assume success. -/
def mod_color_calculate_regamma_params (func : DcTransferFunc)
    (gamma : Option DcGamma) (map_user_ramp can_rom_be_used : Bool) :
    Bool × DcTransferFunc :=
  (true, { func with
             curve_calc := some ⟨.regamma, gamma, map_user_ramp, can_rom_be_used⟩ })

/-- Modelled from the spec: `mod_color_calculate_degamma_params` of the
color-math module (not under `src/`); recorded like the regamma entry point. -/
def mod_color_calculate_degamma_params (func : DcTransferFunc)
    (gamma : Option DcGamma) (map_user_ramp : Bool) :
    Bool × DcTransferFunc :=
  (true, { func with curve_calc := some ⟨.degamma, gamma, map_user_ramp, false⟩ })

/-- `__set_legacy_tf`: builds a legacy-mode (`GAMMA_RGB_256`) gamma from the
256-entry LUT and requests regamma computation with `map_user_ramp = true`.
Allocation always succeeds in this model, so the result code is 0. -/
def __set_legacy_tf (func : DcTransferFunc) (lut : List DrmColorLut)
    (lut_size : Nat) (has_rom : Bool) : Int × DcTransferFunc :=
  let gamma : DcGamma :=
    { type := .gamma_rgb_256, num_entries := lut_size
      entries := __drm_lut_to_dc_gamma lut true }
  let res := mod_color_calculate_regamma_params func (some gamma) true has_rom
  (if res.1 then 0 else -ENOMEM, res.2)

/-- `__set_output_tf`: builds a modern-mode gamma when `lut_size` is nonzero.
If the target curve is linear the gamma is tagged `GAMMA_CUSTOM` and degamma
computation is used as a proxy (the color module cannot compute regamma on a
linear base); otherwise it is tagged `GAMMA_CS_TFM_1D` and regamma computation
is requested with the ROM hint. -/
def __set_output_tf (func : DcTransferFunc) (lut : List DrmColorLut)
    (lut_size : Nat) (has_rom : Bool) : Int × DcTransferFunc :=
  let entries := __drm_lut_to_dc_gamma lut false
  if func.tf = .linear then
    let gamma : Option DcGamma :=
      if lut_size ≠ 0 then
        some { type := .gamma_custom, num_entries := lut_size, entries := entries }
      else none
    let res := mod_color_calculate_degamma_params func gamma gamma.isSome
    (if res.1 then 0 else -ENOMEM, res.2)
  else
    let gamma : Option DcGamma :=
      if lut_size ≠ 0 then
        some { type := .gamma_cs_tfm_1d, num_entries := lut_size, entries := entries }
      else none
    let res := mod_color_calculate_regamma_params func gamma gamma.isSome has_rom
    (if res.1 then 0 else -ENOMEM, res.2)

/-- `__set_input_tf`: builds a `GAMMA_CUSTOM` gamma from the surface LUT and
requests degamma computation. -/
def __set_input_tf (func : DcTransferFunc) (lut : List DrmColorLut)
    (lut_size : Nat) : Int × DcTransferFunc :=
  let gamma : DcGamma :=
    { type := .gamma_custom, num_entries := lut_size
      entries := __drm_lut_to_dc_gamma lut false }
  let res := mod_color_calculate_degamma_params func (some gamma) true
  (if res.1 then 0 else -ENOMEM, res.2)

/-- `__set_func_shaper`: the shaper stage builder; the color module has no
dedicated shaper entry point, so a `GAMMA_CUSTOM` gamma plus degamma
computation emulates it. -/
def __set_func_shaper (shaper_func : DcTransferFunc) (lut : List DrmColorLut)
    (lut_size : Nat) : Int × DcTransferFunc :=
  let gamma : DcGamma :=
    { type := .gamma_custom, num_entries := lut_size
      entries := __drm_lut_to_dc_gamma lut false }
  let res := mod_color_calculate_degamma_params shaper_func (some gamma) true
  (if res.1 then 0 else -ENOMEM, res.2)

/-! ## 3D LUT -/

/-- One converted 3D-LUT sample (`struct dc_rgb`). -/
structure DcRgb where
  red : Nat
  green : Nat
  blue : Nat
deriving DecidableEq, Repr

/-- `struct dc_3dlut` (flattened: the four `tetrahedral_17` sub-tables, the
two configuration bits of `lut_3d`, and `state.bits.initialized`). -/
structure Dc3dLut where
  lut0 : List DcRgb
  lut1 : List DcRgb
  lut2 : List DcRgb
  lut3 : List DcRgb
  use_tetrahedral_9 : Bool
  use_12bits : Bool
  initialized : Bool
deriving DecidableEq, Repr

/-- `__to_dc_lut3d_color`: one sample converted at the given bit precision. -/
def __to_dc_lut3d_color (lut : DrmColorLut) (bit_precision : Nat) : DcRgb :=
  { red := drm_color_lut_extract lut.red bit_precision
    green := drm_color_lut_extract lut.green bit_precision
    blue := drm_color_lut_extract lut.blue bit_precision }

/-- `__drm_3dlut_to_dc_3dlut`: cyclic distribution of the flat sample sequence
into the four sub-tables (flat index `i` goes to sub-table `i mod 4` at
position `i div 4`); the loop runs while `i < lut_size - 4` and a final store
gives `lut0` its one extra trailing sample, all at 12-bit precision. -/
def __drm_3dlut_to_dc_3dlut (lut : List DrmColorLut) (lut_size : Nat)
    (lut3d : Dc3dLut) : Dc3dLut :=
  let iters := (lut_size - 4 + 3) / 4
  { lut3d with
    lut0 := ((List.range iters).map fun k =>
        __to_dc_lut3d_color (lut.getD (4 * k) ⟨0, 0, 0⟩) 12) ++
      [__to_dc_lut3d_color (lut.getD (4 * iters) ⟨0, 0, 0⟩) 12]
    lut1 := (List.range iters).map fun k =>
      __to_dc_lut3d_color (lut.getD (4 * k + 1) ⟨0, 0, 0⟩) 12
    lut2 := (List.range iters).map fun k =>
      __to_dc_lut3d_color (lut.getD (4 * k + 2) ⟨0, 0, 0⟩) 12
    lut3 := (List.range iters).map fun k =>
      __to_dc_lut3d_color (lut.getD (4 * k + 3) ⟨0, 0, 0⟩) 12 }

/-! ## Stream state and the shaper / 3D LUT pair -/

/-- `stream->gamut_remap_matrix` (`struct dc_gamut_remap_matrix`): the 3x4
fixed-point matrix and its enable bit. -/
structure DcGamutRemapMatrix where
  matrix : List Int
  enable_remap : Bool
deriving DecidableEq, Repr

/-- `stream->csc_color_matrix` (`struct dc_csc_transform`): only its
`enable_adjustment` bit is touched by this file. -/
structure DcCscTransform where
  enable_adjustment : Bool
deriving DecidableEq, Repr

/-- `struct dc_stream_state` (the fields this file reads or writes).  The C
`lut3d_func` / `func_shaper` pointers (NULL or a pool object) become
`Option`s. -/
structure DcStreamState where
  out_transfer_func : DcTransferFunc
  func_shaper : Option DcTransferFunc
  lut3d_func : Option Dc3dLut
  gamut_remap_matrix : DcGamutRemapMatrix
  csc_color_matrix : DcCscTransform
deriving DecidableEq, Repr

/-- A fresh (pool) 3D LUT object as handed out by the MPC pool, before the
builders fill it. -/
def pool_lut3d : Dc3dLut :=
  { lut0 := [], lut1 := [], lut2 := [], lut3 := []
    use_tetrahedral_9 := false, use_12bits := false, initialized := false }

/-- A fresh (pool) shaper transfer function as handed out by the MPC pool. -/
def pool_shaper_func : DcTransferFunc :=
  { type := .bypass, tf := .linear, sdr_ref_white_level := 0, curve_calc := none }

/-- Modelled from the spec: `dc_acquire_release_mpc_3dlut_for_ctx` (DC core,
not under `src/`).  The 3D LUT object and the shaper object are one paired
pool resource: on acquire both come into existence together, on release both
references become absent; the call reports success (pool exhaustion -
ResourceAcquisitionFailed - is not modelled, per the claims considered
here). -/
def dc_acquire_release_mpc_3dlut_for_ctx (acquire : Bool) :
    Bool × Option Dc3dLut × Option DcTransferFunc :=
  if acquire then (true, some pool_lut3d, some pool_shaper_func)
  else (true, none, none)

/-- `amdgpu_dm_atomic_lut3d`: converts the DRM 3D LUT into the (acquired) DC
3D LUT object, fixes tetrahedral interpolation with 12-bit precision, marks it
initialized and stores it in the stream. -/
def amdgpu_dm_atomic_lut3d (stream : DcStreamState) (lut : List DrmColorLut)
    (lut_size : Nat) (lut3d : Dc3dLut) : DcStreamState :=
  let lut3d := __drm_3dlut_to_dc_3dlut lut lut_size lut3d
  let lut3d :=
    { lut3d with use_tetrahedral_9 := false, use_12bits := true, initialized := true }
  { stream with lut3d_func := some lut3d }

/-- `amdgpu_dm_atomic_shaper_lut`: with no DRM shaper LUT the shaper stage is
put into bypass; otherwise it becomes distributed points over a linear base
and the shaper builder fills it.  The resulting function object is stored in
the stream. -/
def amdgpu_dm_atomic_shaper_lut (stream : DcStreamState)
    (shaper_lut : List DrmColorLut) (shaper_size : Nat)
    (func_shaper_new : DcTransferFunc) : Int × DcStreamState :=
  if shaper_size = 0 then
    let f := { func_shaper_new with type := TfType.bypass, tf := .linear }
    (0, { stream with func_shaper := some f })
  else
    let f := { func_shaper_new with type := TfType.distributed_points, tf := .linear }
    let r := __set_func_shaper f shaper_lut shaper_size
    if r.1 ≠ 0 then (r.1, stream)
    else (0, { stream with func_shaper := some r.2 })

/-- `amdgpu_dm_atomic_shaper_lut3d`: the pair is acquired only when both the
shaper size and the 3D LUT size are nonzero (`acquire`), released when
`acquire` is false while both objects are currently held, and left alone
otherwise; with `acquire` false the function stores the (possibly released)
pointers and returns without building either stage.  The C code dereferences
the pair without a NULL check after the acquire step; the unreachable
mixed/NULL case is mapped to `DC_ERROR_UNEXPECTED`. -/
def amdgpu_dm_atomic_shaper_lut3d (stream : DcStreamState)
    (drm_shaper_lut : List DrmColorLut) (drm_shaper_size : Nat)
    (drm_lut3d : List DrmColorLut) (drm_lut3d_size : Nat) :
    Int × DcStreamState :=
  let acquire := drm_shaper_size ≠ 0 ∧ drm_lut3d_size ≠ 0
  let step :=
    if (acquire ∧ stream.lut3d_func.isNone ∧ stream.func_shaper.isNone) ∨
        (¬acquire ∧ stream.lut3d_func.isSome ∧ stream.func_shaper.isSome) then
      dc_acquire_release_mpc_3dlut_for_ctx (decide acquire)
    else
      (true, stream.lut3d_func, stream.func_shaper)
  if step.1 = false then (DC_ERROR_UNEXPECTED, stream)
  else
    let stream := { stream with lut3d_func := step.2.1, func_shaper := step.2.2 }
    if ¬acquire then (0, stream)
    else
      match step.2.1, step.2.2 with
      | some lut3d_func, some func_shaper =>
        let stream := amdgpu_dm_atomic_lut3d stream drm_lut3d drm_lut3d_size lut3d_func
        amdgpu_dm_atomic_shaper_lut stream drm_shaper_lut drm_shaper_size func_shaper
      | _, _ => (DC_ERROR_UNEXPECTED, stream)

/-! ## Output regamma -/

/-- `amdgpu_dm_set_atomic_regamma`: with a nonzero regamma size or a
non-linear target curve, the output stage becomes distributed points at the
requested curve with an SDR reference white level of 80 and is filled by the
modern output builder; otherwise the block is put into bypass. -/
def amdgpu_dm_set_atomic_regamma (stream : DcStreamState)
    (regamma_lut : List DrmColorLut) (regamma_size : Nat) (has_rom : Bool)
    (tf : DcTransferFuncPredefined) : Int × DcStreamState :=
  if regamma_size ≠ 0 ∨ tf ≠ .linear then
    let func := { stream.out_transfer_func with
                    type := TfType.distributed_points, tf := tf
                    sdr_ref_white_level := 80 }
    let r := __set_output_tf func regamma_lut regamma_size has_rom
    (r.1, { stream with out_transfer_func := r.2 })
  else
    (0, { stream with out_transfer_func :=
            { stream.out_transfer_func with type := TfType.bypass, tf := .linear } })

/-! ## DRM state, capabilities and validation -/

/-- The DRM CRTC color state: the four property blobs (each an optional list
of LUT entries), the optional CTM blob (nine S31.32 sign-magnitude words) and
the requested regamma transfer function. -/
structure DrmCrtcState where
  degamma_lut : Option (List DrmColorLut)
  ctm : Option (List Nat)
  gamma_lut : Option (List DrmColorLut)
  shaper_lut : Option (List DrmColorLut)
  lut3d : Option (List DrmColorLut)
  regamma_tf : DrmTransferFunction
deriving DecidableEq, Repr

/-- The slice of `adev->dm.dc->caps.color.mpc` this file reads. -/
structure DcColorCaps where
  num_3dluts : Nat
deriving DecidableEq, Repr

/-- `__extract_blob_lut`: the LUT (or NULL) and its size (0 if absent). -/
def __extract_blob_lut (blob : Option (List DrmColorLut)) :
    Option (List DrmColorLut) × Nat :=
  match blob with
  | some l => (some l, l.length)
  | none => (none, 0)

/-- `amdgpu_dm_get_lut3d_size`: the given default size if the hardware has
any MPC 3D LUTs, zero otherwise. -/
def amdgpu_dm_get_lut3d_size (caps : DcColorCaps) (lut_size : Nat) : Nat :=
  if caps.num_3dluts ≠ 0 then lut_size else 0

/-- `amdgpu_dm_verify_lut3d_size`: a supplied shaper LUT must match the
capability-derived shaper size and a supplied 3D LUT the capability-derived
3D size; any mismatch is `-EINVAL`. -/
def amdgpu_dm_verify_lut3d_size (caps : DcColorCaps) (crtc_state : DrmCrtcState) :
    Int :=
  let shaper := __extract_blob_lut crtc_state.shaper_lut
  if shaper.1.isSome ∧ shaper.2 ≠ amdgpu_dm_get_lut3d_size caps MAX_COLOR_LUT_ENTRIES then
    -EINVAL
  else
    let lut3d := __extract_blob_lut crtc_state.lut3d
    if lut3d.1.isSome ∧ lut3d.2 ≠ amdgpu_dm_get_lut3d_size caps MAX_COLOR_3DLUT_ENTRIES then
      -EINVAL
    else 0

/-- `amdgpu_dm_verify_lut_sizes`: a supplied degamma LUT must have exactly
`MAX_COLOR_LUT_ENTRIES` entries; a supplied gamma LUT must have either
`MAX_COLOR_LUT_ENTRIES` or `MAX_COLOR_LEGACY_LUT_ENTRIES` entries. -/
def amdgpu_dm_verify_lut_sizes (crtc_state : DrmCrtcState) : Int :=
  let deg := __extract_blob_lut crtc_state.degamma_lut
  if deg.1.isSome ∧ deg.2 ≠ MAX_COLOR_LUT_ENTRIES then
    -EINVAL
  else
    let gam := __extract_blob_lut crtc_state.gamma_lut
    if gam.1.isSome ∧ gam.2 ≠ MAX_COLOR_LUT_ENTRIES ∧
        gam.2 ≠ MAX_COLOR_LEGACY_LUT_ENTRIES then
      -EINVAL
    else 0

/-! ## CRTC (output) orchestrator -/

/-- `struct dm_crtc_state` (the fields this file uses): the DRM CRTC state
plus the derived cross-phase flags. -/
structure DmCrtcState where
  base : DrmCrtcState
  cm_has_degamma : Bool
  cm_is_degamma_srgb : Bool
deriving DecidableEq, Repr

/-- Result of one `amdgpu_dm_update_crtc_color_mgmt` run: the returned error
code and the CRTC/stream state as left behind (C mutates them in place, so a
mid-function error return keeps the mutations made so far). -/
structure CrtcUpdateResult where
  r : Int
  crtc : DmCrtcState
  stream : DcStreamState
deriving DecidableEq, Repr

/-- The tail of `amdgpu_dm_update_crtc_color_mgmt` (split out for reuse in
proofs): store the derived degamma flag into `cm_has_degamma`, then either
convert and program the CTM into the gamut-remap block (enabling remap and
disabling the secondary adjustment stage) or bypass both. -/
def update_crtc_ctm_tail (crtc : DmCrtcState) (stream : DcStreamState)
    (has_degamma : Bool) : CrtcUpdateResult :=
  let crtc := { crtc with cm_has_degamma := has_degamma }
  match crtc.base.ctm with
  | some ctm =>
    let stream :=
      { stream with
          gamut_remap_matrix :=
            { matrix := __drm_ctm_to_dc_matrix ctm, enable_remap := true }
          csc_color_matrix := { enable_adjustment := false } }
    ⟨0, crtc, stream⟩
  | none =>
    let stream :=
      { stream with
          gamut_remap_matrix := { stream.gamut_remap_matrix with enable_remap := false }
          csc_color_matrix := { enable_adjustment := false } }
    ⟨0, crtc, stream⟩

/-- `amdgpu_dm_update_crtc_color_mgmt`: validates LUT sizes, extracts the
blobs, derives `has_*` flags, selects legacy mode iff the regamma LUT has the
legacy size, programs regamma/shaper/3D-LUT accordingly, then programs the
CTM into the gamut-remap block (`update_crtc_ctm_tail`).  `caps` abstracts
`adev->dm.dc->caps.color.mpc` and `has_rom` the `asic_type <= CHIP_RAVEN`
test. -/
def amdgpu_dm_update_crtc_color_mgmt (caps : DcColorCaps) (has_rom : Bool)
    (crtc : DmCrtcState) (stream : DcStreamState) : CrtcUpdateResult :=
  let r := amdgpu_dm_verify_lut_sizes crtc.base
  if r ≠ 0 then ⟨r, crtc, stream⟩ else
  let r := amdgpu_dm_verify_lut3d_size caps crtc.base
  if r ≠ 0 then ⟨r, crtc, stream⟩ else
  let degamma := __extract_blob_lut crtc.base.degamma_lut
  let shaper := __extract_blob_lut crtc.base.shaper_lut
  let lut3d := __extract_blob_lut crtc.base.lut3d
  let regamma := __extract_blob_lut crtc.base.gamma_lut
  let has_degamma :=
    degamma.1.isSome && !__is_lut_linear (degamma.1.getD []) degamma.2
  let has_shaper_lut := shaper.1.isSome
  let has_lut3d := lut3d.1.isSome
  let has_regamma :=
    regamma.1.isSome && !__is_lut_linear (regamma.1.getD []) regamma.2
  let is_legacy := regamma.2 = MAX_COLOR_LEGACY_LUT_ENTRIES
  let tf := drm_tf_to_dc_tf crtc.base.regamma_tf
  let crtc := { crtc with cm_has_degamma := false, cm_is_degamma_srgb := false }
  if is_legacy then
    let crtc := { crtc with cm_is_degamma_srgb := true }
    let func := { stream.out_transfer_func with
                    type := TfType.distributed_points, tf := .srgb }
    let rf := __set_legacy_tf func (regamma.1.getD []) regamma.2 has_rom
    let stream := { stream with out_transfer_func := rf.2 }
    if rf.1 ≠ 0 then ⟨rf.1, crtc, stream⟩ else
    update_crtc_ctm_tail crtc stream has_degamma
  else
    let s1 :=
      if has_lut3d then
        let shaper_size := if has_shaper_lut then shaper.2 else 0
        amdgpu_dm_atomic_shaper_lut3d stream (shaper.1.getD []) shaper_size
          (lut3d.1.getD []) lut3d.2
      else
        amdgpu_dm_atomic_shaper_lut3d stream [] 0 [] 0
    if s1.1 ≠ 0 then ⟨s1.1, crtc, s1.2⟩ else
    let regamma_size := if has_regamma then regamma.2 else 0
    let s2 := amdgpu_dm_set_atomic_regamma s1.2 (regamma.1.getD []) regamma_size
      has_rom tf
    if s2.1 ≠ 0 then ⟨s2.1, crtc, s2.2⟩ else
    update_crtc_ctm_tail crtc s2.2 has_degamma

/-! ## Plane (surface) orchestrator -/

/-- Modelled from the spec: `enum surface_pixel_format` (DC headers, not under
`src/`).  The translation layer only distinguishes the two 4:2:0
chroma-subsampled video formats it names; representative non-subsampled
formats stand for all others. -/
inductive SurfacePixelFormat where
  | graphics_argb8888
  | graphics_abgr2101010
  | video_420_ycbcr
  | video_420_ycrcb
deriving DecidableEq, Repr

/-- The DRM plane color state read by this file: the optional surface degamma
blob, the requested degamma transfer function and the HDR multiplier (an
S31.32 sign-magnitude word). -/
structure DrmPlaneState where
  degamma_lut : Option (List DrmColorLut)
  degamma_tf : DrmTransferFunction
  hdr_mult : Nat
deriving DecidableEq, Repr

/-- `struct dc_plane_state` (the fields this file uses). -/
structure DcPlaneState where
  format : SurfacePixelFormat
  in_transfer_func : DcTransferFunc
  hdr_mult : Int
deriving DecidableEq, Repr

/-- `amdgpu_dm_update_plane_color_mgmt`: resolves the surface degamma stage by
the first matching rule: explicit non-linear surface LUT, else explicit
non-default curve, else reuse of the CRTC degamma LUT when the output has
`cm_has_degamma`, else a predefined base curve when the output is in
legacy-sRGB-degamma mode, else bypass.  The base curve `tf` is BT.709 for the
4:2:0 chroma-subsampled formats and sRGB otherwise. -/
def amdgpu_dm_update_plane_color_mgmt (crtc : DmCrtcState)
    (plane_state : DrmPlaneState) (dc_plane_state : DcPlaneState) :
    Int × DcPlaneState :=
  let degamma := __extract_blob_lut plane_state.degamma_lut
  let has_degamma :=
    degamma.1.isSome && !__is_lut_linear (degamma.1.getD []) degamma.2
  let drm_tf := plane_state.degamma_tf
  let dc_plane_state :=
    { dc_plane_state with hdr_mult := dc_fixpt_from_s3132 plane_state.hdr_mult }
  let tf : DcTransferFuncPredefined :=
    match dc_plane_state.format with
    | .video_420_ycbcr => .bt709
    | .video_420_ycrcb => .bt709
    | _ => .srgb
  if has_degamma then
    let func := { dc_plane_state.in_transfer_func with
                    type := TfType.distributed_points, tf := drm_tf_to_dc_tf drm_tf }
    let r := __set_input_tf func (degamma.1.getD []) degamma.2
    (r.1, { dc_plane_state with in_transfer_func := r.2 })
  else if drm_tf ≠ .default then
    let func := { dc_plane_state.in_transfer_func with
                    type := TfType.predefined, tf := drm_tf_to_dc_tf drm_tf }
    let res := mod_color_calculate_degamma_params func none false
    (if res.1 then 0 else -ENOMEM, { dc_plane_state with in_transfer_func := res.2 })
  else if crtc.cm_has_degamma then
    let crtc_degamma := __extract_blob_lut crtc.base.degamma_lut
    let func := { dc_plane_state.in_transfer_func with
                    type := TfType.distributed_points
                    tf := if crtc.cm_is_degamma_srgb then tf else .linear }
    let r := __set_input_tf func (crtc_degamma.1.getD []) crtc_degamma.2
    (r.1, { dc_plane_state with in_transfer_func := r.2 })
  else if crtc.cm_is_degamma_srgb then
    let func := { dc_plane_state.in_transfer_func with
                    type := TfType.predefined, tf := tf }
    if tf ≠ .srgb then
      let res := mod_color_calculate_degamma_params func none false
      (if res.1 then 0 else -ENOMEM,
        { dc_plane_state with in_transfer_func := res.2 })
    else
      (0, { dc_plane_state with in_transfer_func := func })
  else
    (0, { dc_plane_state with in_transfer_func :=
            { dc_plane_state.in_transfer_func with
                type := TfType.bypass, tf := .linear } })

/-! ## Helper lemmas about the component functions -/

theorem update_crtc_ctm_tail_r (crtc : DmCrtcState) (stream : DcStreamState)
    (hd : Bool) : (update_crtc_ctm_tail crtc stream hd).r = 0 := by
  rcases h : crtc.base.ctm with _ | ctm <;> simp [update_crtc_ctm_tail, h]

theorem update_crtc_ctm_tail_out_tf (crtc : DmCrtcState) (stream : DcStreamState)
    (hd : Bool) :
    (update_crtc_ctm_tail crtc stream hd).stream.out_transfer_func =
      stream.out_transfer_func := by
  rcases h : crtc.base.ctm with _ | ctm <;> simp [update_crtc_ctm_tail, h]

theorem update_crtc_ctm_tail_lut3d (crtc : DmCrtcState) (stream : DcStreamState)
    (hd : Bool) :
    (update_crtc_ctm_tail crtc stream hd).stream.lut3d_func = stream.lut3d_func := by
  rcases h : crtc.base.ctm with _ | ctm <;> simp [update_crtc_ctm_tail, h]

theorem update_crtc_ctm_tail_shaper (crtc : DmCrtcState) (stream : DcStreamState)
    (hd : Bool) :
    (update_crtc_ctm_tail crtc stream hd).stream.func_shaper = stream.func_shaper := by
  rcases h : crtc.base.ctm with _ | ctm <;> simp [update_crtc_ctm_tail, h]

theorem update_crtc_ctm_tail_srgb (crtc : DmCrtcState) (stream : DcStreamState)
    (hd : Bool) :
    (update_crtc_ctm_tail crtc stream hd).crtc.cm_is_degamma_srgb =
      crtc.cm_is_degamma_srgb := by
  rcases h : crtc.base.ctm with _ | ctm <;> simp [update_crtc_ctm_tail, h]

theorem update_crtc_ctm_tail_csc (crtc : DmCrtcState) (stream : DcStreamState)
    (hd : Bool) :
    (update_crtc_ctm_tail crtc stream hd).stream.csc_color_matrix.enable_adjustment =
      false := by
  rcases h : crtc.base.ctm with _ | ctm <;> simp [update_crtc_ctm_tail, h]

theorem update_crtc_ctm_tail_remap (crtc : DmCrtcState) (stream : DcStreamState)
    (hd : Bool) :
    (update_crtc_ctm_tail crtc stream hd).stream.gamut_remap_matrix.enable_remap =
      crtc.base.ctm.isSome := by
  rcases h : crtc.base.ctm with _ | ctm <;> simp [update_crtc_ctm_tail, h]

theorem __set_output_tf_r (f : DcTransferFunc) (lut : List DrmColorLut)
    (n : Nat) (rom : Bool) : (__set_output_tf f lut n rom).1 = 0 := by
  unfold __set_output_tf mod_color_calculate_degamma_params
    mod_color_calculate_regamma_params
  dsimp only
  split <;> rfl

theorem __set_output_tf_type (f : DcTransferFunc) (lut : List DrmColorLut)
    (n : Nat) (rom : Bool) : (__set_output_tf f lut n rom).2.type = f.type := by
  unfold __set_output_tf mod_color_calculate_degamma_params
    mod_color_calculate_regamma_params
  dsimp only
  split <;> rfl

theorem __set_output_tf_tf (f : DcTransferFunc) (lut : List DrmColorLut)
    (n : Nat) (rom : Bool) : (__set_output_tf f lut n rom).2.tf = f.tf := by
  unfold __set_output_tf mod_color_calculate_degamma_params
    mod_color_calculate_regamma_params
  dsimp only
  split <;> rfl

theorem __set_output_tf_white (f : DcTransferFunc) (lut : List DrmColorLut)
    (n : Nat) (rom : Bool) :
    (__set_output_tf f lut n rom).2.sdr_ref_white_level = f.sdr_ref_white_level := by
  unfold __set_output_tf mod_color_calculate_degamma_params
    mod_color_calculate_regamma_params
  dsimp only
  split <;> rfl

theorem amdgpu_dm_set_atomic_regamma_r (stream : DcStreamState)
    (lut : List DrmColorLut) (size : Nat) (rom : Bool)
    (tf : DcTransferFuncPredefined) :
    (amdgpu_dm_set_atomic_regamma stream lut size rom tf).1 = 0 := by
  unfold amdgpu_dm_set_atomic_regamma
  dsimp only
  split
  · exact __set_output_tf_r _ _ _ _
  · rfl

theorem amdgpu_dm_set_atomic_regamma_lut3d (stream : DcStreamState)
    (lut : List DrmColorLut) (size : Nat) (rom : Bool)
    (tf : DcTransferFuncPredefined) :
    (amdgpu_dm_set_atomic_regamma stream lut size rom tf).2.lut3d_func =
      stream.lut3d_func := by
  unfold amdgpu_dm_set_atomic_regamma
  dsimp only
  split <;> rfl

theorem amdgpu_dm_set_atomic_regamma_shaper (stream : DcStreamState)
    (lut : List DrmColorLut) (size : Nat) (rom : Bool)
    (tf : DcTransferFuncPredefined) :
    (amdgpu_dm_set_atomic_regamma stream lut size rom tf).2.func_shaper =
      stream.func_shaper := by
  unfold amdgpu_dm_set_atomic_regamma
  dsimp only
  split <;> rfl

theorem amdgpu_dm_set_atomic_regamma_csc (stream : DcStreamState)
    (lut : List DrmColorLut) (size : Nat) (rom : Bool)
    (tf : DcTransferFuncPredefined) :
    (amdgpu_dm_set_atomic_regamma stream lut size rom tf).2.csc_color_matrix =
      stream.csc_color_matrix := by
  unfold amdgpu_dm_set_atomic_regamma
  dsimp only
  split <;> rfl

theorem amdgpu_dm_set_atomic_regamma_gamut (stream : DcStreamState)
    (lut : List DrmColorLut) (size : Nat) (rom : Bool)
    (tf : DcTransferFuncPredefined) :
    (amdgpu_dm_set_atomic_regamma stream lut size rom tf).2.gamut_remap_matrix =
      stream.gamut_remap_matrix := by
  unfold amdgpu_dm_set_atomic_regamma
  dsimp only
  split <;> rfl

theorem shaper3d_out_tf (stream : DcStreamState) (sl : List DrmColorLut) (ss : Nat)
    (l3 : List DrmColorLut) (ls : Nat) :
    ((amdgpu_dm_atomic_shaper_lut3d stream sl ss l3 ls).2).out_transfer_func =
      stream.out_transfer_func := by
  unfold amdgpu_dm_atomic_shaper_lut3d dc_acquire_release_mpc_3dlut_for_ctx
    amdgpu_dm_atomic_lut3d amdgpu_dm_atomic_shaper_lut __set_func_shaper
    mod_color_calculate_degamma_params
  dsimp only
  repeat' split
  all_goals rfl

theorem shaper3d_gamut (stream : DcStreamState) (sl : List DrmColorLut) (ss : Nat)
    (l3 : List DrmColorLut) (ls : Nat) :
    ((amdgpu_dm_atomic_shaper_lut3d stream sl ss l3 ls).2).gamut_remap_matrix =
      stream.gamut_remap_matrix := by
  unfold amdgpu_dm_atomic_shaper_lut3d dc_acquire_release_mpc_3dlut_for_ctx
    amdgpu_dm_atomic_lut3d amdgpu_dm_atomic_shaper_lut __set_func_shaper
    mod_color_calculate_degamma_params
  dsimp only
  repeat' split
  all_goals rfl

theorem shaper3d_csc (stream : DcStreamState) (sl : List DrmColorLut) (ss : Nat)
    (l3 : List DrmColorLut) (ls : Nat) :
    ((amdgpu_dm_atomic_shaper_lut3d stream sl ss l3 ls).2).csc_color_matrix =
      stream.csc_color_matrix := by
  unfold amdgpu_dm_atomic_shaper_lut3d dc_acquire_release_mpc_3dlut_for_ctx
    amdgpu_dm_atomic_lut3d amdgpu_dm_atomic_shaper_lut __set_func_shaper
    mod_color_calculate_degamma_params
  dsimp only
  repeat' split
  all_goals rfl

theorem shaper3d_release (stream : DcStreamState) (sl : List DrmColorLut) (ss : Nat)
    (l3 : List DrmColorLut) (ls : Nat)
    (hinv : stream.lut3d_func.isSome = stream.func_shaper.isSome)
    (h0 : ss = 0 ∨ ls = 0) :
    (amdgpu_dm_atomic_shaper_lut3d stream sl ss l3 ls).1 = 0 ∧
    (amdgpu_dm_atomic_shaper_lut3d stream sl ss l3 ls).2.lut3d_func = none ∧
    (amdgpu_dm_atomic_shaper_lut3d stream sl ss l3 ls).2.func_shaper = none := by
  have hacq : ¬ (ss ≠ 0 ∧ ls ≠ 0) := by tauto
  unfold amdgpu_dm_atomic_shaper_lut3d dc_acquire_release_mpc_3dlut_for_ctx
  rcases h1 : stream.lut3d_func with _ | d <;>
    rcases h2 : stream.func_shaper with _ | f <;>
    simp [h1, h2, hacq] <;> simp [h1, h2] at hinv

theorem shaper3d_acquire (stream : DcStreamState) (sl : List DrmColorLut) (ss : Nat)
    (l3 : List DrmColorLut) (ls : Nat)
    (hinv : stream.lut3d_func.isSome = stream.func_shaper.isSome)
    (hss : ss ≠ 0) (hls : ls ≠ 0) :
    (amdgpu_dm_atomic_shaper_lut3d stream sl ss l3 ls).1 = 0 ∧
    (∃ d, (amdgpu_dm_atomic_shaper_lut3d stream sl ss l3 ls).2.lut3d_func = some d ∧
      d.initialized = true ∧ d.use_12bits = true ∧ d.use_tetrahedral_9 = false) ∧
    (∃ f, (amdgpu_dm_atomic_shaper_lut3d stream sl ss l3 ls).2.func_shaper = some f ∧
      f.type = TfType.distributed_points ∧ f.tf = DcTransferFuncPredefined.linear) := by
  unfold amdgpu_dm_atomic_shaper_lut3d dc_acquire_release_mpc_3dlut_for_ctx
    amdgpu_dm_atomic_lut3d amdgpu_dm_atomic_shaper_lut __set_func_shaper
    mod_color_calculate_degamma_params
  rcases h1 : stream.lut3d_func with _ | d <;>
    rcases h2 : stream.func_shaper with _ | f <;>
    simp [h1, h2, hss, hls] <;> simp [h1, h2] at hinv

theorem verify_lut_sizes_cases (st : DrmCrtcState) :
    amdgpu_dm_verify_lut_sizes st = 0 ∨ amdgpu_dm_verify_lut_sizes st = -EINVAL := by
  unfold amdgpu_dm_verify_lut_sizes
  dsimp only
  split
  · right; rfl
  · split
    · right; rfl
    · left; rfl

theorem verify_lut3d_size_cases (caps : DcColorCaps) (st : DrmCrtcState) :
    amdgpu_dm_verify_lut3d_size caps st = 0 ∨
      amdgpu_dm_verify_lut3d_size caps st = -EINVAL := by
  unfold amdgpu_dm_verify_lut3d_size
  dsimp only
  split
  · right; rfl
  · split
    · right; rfl
    · left; rfl

/-! ## Claim theorems -/

/-- The identity 3x3 CTM in S31.32 sign-magnitude form: 1.0 is `2 ^ 32`. -/
def ctm_identity_3x3 : List Nat :=
  [2 ^ 32, 0, 0, 0, 2 ^ 32, 0, 0, 0, 2 ^ 32]

/-- The 3x4 homogeneous identity with a zero fourth column, in two's-complement
S31.32 fixed point. -/
def dc_matrix_identity_3x4 : List Int :=
  [2 ^ 32, 0, 0, 0, 0, 2 ^ 32, 0, 0, 0, 0, 2 ^ 32, 0]

/-- C8: CTM conversion produces a 3x4 row-major matrix (12 entries) in which
every index `i` with `i % 4 = 3` is exactly zero and every other index equals
the two's-complement conversion of source coefficient `i - i / 4`;
consequently the identity 3x3 matrix converts to the 3x4 homogeneous identity
with a zero fourth column. -/
theorem claim_c8_ctm_to_dc_matrix (ctm : List Nat) (_h : ctm.length = 9) :
    (__drm_ctm_to_dc_matrix ctm).length = 12 ∧
    (∀ i, i < 12 →
      ((i % 4 = 3 → (__drm_ctm_to_dc_matrix ctm).getD i 1 = 0) ∧
       (i % 4 ≠ 3 →
         (__drm_ctm_to_dc_matrix ctm).getD i 1 =
           dc_fixpt_from_s3132 (ctm.getD (i - i / 4) 0)))) ∧
    __drm_ctm_to_dc_matrix ctm_identity_3x3 = dc_matrix_identity_3x4 := by
  refine ⟨by simp [__drm_ctm_to_dc_matrix], ?_, by decide⟩
  intro i hi
  constructor <;> intro hmod <;>
    interval_cases i <;>
    simp_all [__drm_ctm_to_dc_matrix, dc_fixpt_zero]

/-- C8 witness: the general description applied to the identity matrix. -/
theorem claim_c8_witness :
    ctm_identity_3x3.length = 9 ∧
      (__drm_ctm_to_dc_matrix ctm_identity_3x3).length = 12 ∧
      (∀ i, i < 12 →
        ((i % 4 = 3 → (__drm_ctm_to_dc_matrix ctm_identity_3x3).getD i 1 = 0) ∧
         (i % 4 ≠ 3 →
           (__drm_ctm_to_dc_matrix ctm_identity_3x3).getD i 1 =
             dc_fixpt_from_s3132 (ctm_identity_3x3.getD (i - i / 4) 0)))) ∧
      __drm_ctm_to_dc_matrix ctm_identity_3x3 = dc_matrix_identity_3x4 :=
  ⟨by decide, claim_c8_ctm_to_dc_matrix ctm_identity_3x3 (by decide)⟩

/-- Claim-side (specification-worded) condition for `verify_lut_sizes`
failure: a supplied degamma LUT whose size differs from the standard full
size, or a supplied gamma LUT whose size differs from both the full size and
the legacy size. -/
def lut_sizes_invalid_claim (st : DrmCrtcState) : Bool :=
  (match st.degamma_lut with
   | some l => decide (l.length ≠ MAX_COLOR_LUT_ENTRIES)
   | none => false) ||
  (match st.gamma_lut with
   | some l => decide (l.length ≠ MAX_COLOR_LUT_ENTRIES ∧
       l.length ≠ MAX_COLOR_LEGACY_LUT_ENTRIES)
   | none => false)

/-- C6: `amdgpu_dm_verify_lut_sizes` fails with `-EINVAL` exactly when the
claim-side size condition holds (absent LUTs pass, so it returns 0
otherwise), and a validation failure makes `amdgpu_dm_update_crtc_color_mgmt`
return `-EINVAL` before mutating either the CRTC state or the stream. -/
theorem claim_c6_verify_lut_sizes (st : DrmCrtcState) (caps : DcColorCaps)
    (rom : Bool) (crtc : DmCrtcState) (stream : DcStreamState) :
    (amdgpu_dm_verify_lut_sizes st = -EINVAL ↔ lut_sizes_invalid_claim st = true) ∧
    (amdgpu_dm_verify_lut_sizes st = 0 ↔ lut_sizes_invalid_claim st = false) ∧
    (amdgpu_dm_verify_lut_sizes crtc.base = -EINVAL →
      (amdgpu_dm_update_crtc_color_mgmt caps rom crtc stream).r = -EINVAL ∧
      (amdgpu_dm_update_crtc_color_mgmt caps rom crtc stream).crtc = crtc ∧
      (amdgpu_dm_update_crtc_color_mgmt caps rom crtc stream).stream = stream) := by
  have h1 : amdgpu_dm_verify_lut_sizes st = -EINVAL ↔
      lut_sizes_invalid_claim st = true := by
    cases hd : st.degamma_lut <;> cases hg : st.gamma_lut <;>
      simp [amdgpu_dm_verify_lut_sizes, lut_sizes_invalid_claim,
        __extract_blob_lut, hd, hg, EINVAL] <;>
      tauto
  refine ⟨h1, ⟨?_, ?_⟩, ?_⟩
  · intro h0
    rcases Bool.eq_false_or_eq_true (lut_sizes_invalid_claim st) with hb | hb
    · have hv := h1.mpr hb
      rw [h0] at hv
      norm_num [EINVAL] at hv
    · exact hb
  · intro hb
    rcases verify_lut_sizes_cases st with h | h
    · exact h
    · have hv := h1.mp h
      rw [hb] at hv
      simp at hv
  · intro h
    unfold amdgpu_dm_update_crtc_color_mgmt
    rw [h]
    norm_num [EINVAL]

/-- A quiescent stream used as the starting state of concrete runs. -/
def stream_w : DcStreamState :=
  { out_transfer_func :=
      { type := TfType.bypass, tf := .linear, sdr_ref_white_level := 0
        curve_calc := none }
    func_shaper := none
    lut3d_func := none
    gamut_remap_matrix := { matrix := List.replicate 12 0, enable_remap := false }
    csc_color_matrix := { enable_adjustment := false } }

/-- A CRTC state carrying a degamma LUT of (invalid) size 1. -/
def crtc_c6 : DmCrtcState :=
  { base :=
      { degamma_lut := some [⟨0, 0, 0⟩], ctm := none, gamma_lut := none
        shaper_lut := none, lut3d := none, regamma_tf := .default }
    cm_has_degamma := false, cm_is_degamma_srgb := false }

/-- C6 witness: a one-entry degamma LUT is rejected with `-EINVAL` and the
orchestrator leaves both states untouched. -/
theorem claim_c6_witness :
    (amdgpu_dm_verify_lut_sizes crtc_c6.base = -EINVAL ↔
      lut_sizes_invalid_claim crtc_c6.base = true) ∧
    ((amdgpu_dm_update_crtc_color_mgmt ⟨0⟩ false crtc_c6 stream_w).r = -EINVAL ∧
      (amdgpu_dm_update_crtc_color_mgmt ⟨0⟩ false crtc_c6 stream_w).crtc = crtc_c6 ∧
      (amdgpu_dm_update_crtc_color_mgmt ⟨0⟩ false crtc_c6 stream_w).stream = stream_w) :=
  ⟨(claim_c6_verify_lut_sizes crtc_c6.base ⟨0⟩ false crtc_c6 stream_w).1,
   (claim_c6_verify_lut_sizes crtc_c6.base ⟨0⟩ false crtc_c6 stream_w).2.2 (by decide)⟩

/-- Claim-side (specification-worded) condition for `verify_lut3d_size`
failure: the expected size is computed from hardware capability (0 when no 3D
LUT is supported, else the fixed shaper / 3D sizes) and any supplied blob
whose size mismatches fails. -/
def lut3d_sizes_invalid_claim (caps : DcColorCaps) (st : DrmCrtcState) : Bool :=
  (match st.shaper_lut with
   | some l => decide (l.length ≠
       (if caps.num_3dluts ≠ 0 then MAX_COLOR_LUT_ENTRIES else 0))
   | none => false) ||
  (match st.lut3d with
   | some l => decide (l.length ≠
       (if caps.num_3dluts ≠ 0 then MAX_COLOR_3DLUT_ENTRIES else 0))
   | none => false)

theorem verify3d_no_caps (caps : DcColorCaps) (st : DrmCrtcState)
    (l : List DrmColorLut) (hc : caps.num_3dluts = 0) (h3 : st.lut3d = some l)
    (hlen : l.length ≠ 0) : amdgpu_dm_verify_lut3d_size caps st = -EINVAL := by
  unfold amdgpu_dm_verify_lut3d_size amdgpu_dm_get_lut3d_size
  simp [__extract_blob_lut, h3, hc, hlen]

/-- C7: `amdgpu_dm_verify_lut3d_size` fails with `-EINVAL` exactly when a
supplied shaper or 3D LUT blob mismatches the capability-derived expected
size (and returns 0 otherwise); in particular a nonempty 3D LUT supplied
while the capability reports zero 3D LUTs makes the orchestrator return
`-EINVAL` with both states untouched, so no paired resource is acquired. -/
theorem claim_c7_verify_lut3d_size (caps caps2 : DcColorCaps)
    (st : DrmCrtcState) (rom : Bool) (crtc : DmCrtcState) (stream : DcStreamState) :
    (amdgpu_dm_verify_lut3d_size caps st = -EINVAL ↔
      lut3d_sizes_invalid_claim caps st = true) ∧
    (amdgpu_dm_verify_lut3d_size caps st = 0 ↔
      lut3d_sizes_invalid_claim caps st = false) ∧
    (caps2.num_3dluts = 0 → ∀ l, crtc.base.lut3d = some l → l.length ≠ 0 →
      (amdgpu_dm_update_crtc_color_mgmt caps2 rom crtc stream).r = -EINVAL ∧
      (amdgpu_dm_update_crtc_color_mgmt caps2 rom crtc stream).crtc = crtc ∧
      (amdgpu_dm_update_crtc_color_mgmt caps2 rom crtc stream).stream = stream) := by
  have h1 : amdgpu_dm_verify_lut3d_size caps st = -EINVAL ↔
      lut3d_sizes_invalid_claim caps st = true := by
    cases hs : st.shaper_lut <;> cases h3 : st.lut3d <;>
      simp [amdgpu_dm_verify_lut3d_size, lut3d_sizes_invalid_claim,
        amdgpu_dm_get_lut3d_size, __extract_blob_lut, hs, h3, EINVAL] <;>
      tauto
  refine ⟨h1, ⟨?_, ?_⟩, ?_⟩
  · intro h0
    rcases Bool.eq_false_or_eq_true (lut3d_sizes_invalid_claim caps st) with hb | hb
    · have hv := h1.mpr hb
      rw [h0] at hv
      norm_num [EINVAL] at hv
    · exact hb
  · intro hb
    rcases verify_lut3d_size_cases caps st with h | h
    · exact h
    · have hv := h1.mp h
      rw [hb] at hv
      simp at hv
  · intro hc l h3 hlen
    have hv3 := verify3d_no_caps caps2 crtc.base l hc h3 hlen
    rcases verify_lut_sizes_cases crtc.base with h0 | h0
    · unfold amdgpu_dm_update_crtc_color_mgmt
      rw [h0, hv3]
      norm_num [EINVAL]
    · unfold amdgpu_dm_update_crtc_color_mgmt
      rw [h0]
      norm_num [EINVAL]

/-- A CRTC state requesting a full-size 3D LUT. -/
def crtc_c7 : DmCrtcState :=
  { base :=
      { degamma_lut := none, ctm := none, gamma_lut := none
        shaper_lut := none, lut3d := some (List.replicate 4913 ⟨0, 0, 0⟩)
        regamma_tf := .default }
    cm_has_degamma := false, cm_is_degamma_srgb := false }

/-- C7 witness: a 4913-entry 3D LUT on hardware with zero 3D LUTs is rejected
and nothing is mutated (so nothing is acquired). -/
theorem claim_c7_witness :
    (⟨0⟩ : DcColorCaps).num_3dluts = 0 ∧
    crtc_c7.base.lut3d = some (List.replicate 4913 ⟨0, 0, 0⟩) ∧
    (List.replicate (4913 : Nat) (⟨0, 0, 0⟩ : DrmColorLut)).length ≠ 0 ∧
    ((amdgpu_dm_update_crtc_color_mgmt ⟨0⟩ false crtc_c7 stream_w).r = -EINVAL ∧
      (amdgpu_dm_update_crtc_color_mgmt ⟨0⟩ false crtc_c7 stream_w).crtc = crtc_c7 ∧
      (amdgpu_dm_update_crtc_color_mgmt ⟨0⟩ false crtc_c7 stream_w).stream = stream_w) :=
  ⟨rfl, rfl, by rw [List.length_replicate]; norm_num,
   (claim_c7_verify_lut3d_size ⟨0⟩ ⟨0⟩ crtc_c7.base false crtc_c7 stream_w).2.2
     rfl (List.replicate 4913 ⟨0, 0, 0⟩) rfl
     (by rw [List.length_replicate]; norm_num)⟩

/-- C3: whenever the regamma LUT has the legacy size (256), the orchestrator
selects legacy mode: it sets `cm_is_degamma_srgb`, makes the output transfer
function distributed points over an sRGB base and builds it through the
legacy regamma builder `__set_legacy_tf`, regardless of the requested
transfer function (`crtc.base.regamma_tf` is universally quantified here). -/
theorem claim_c3_legacy_regamma (caps : DcColorCaps) (rom : Bool)
    (crtc : DmCrtcState) (stream : DcStreamState) (g : List DrmColorLut)
    (hg : crtc.base.gamma_lut = some g)
    (hlen : g.length = MAX_COLOR_LEGACY_LUT_ENTRIES)
    (hv1 : amdgpu_dm_verify_lut_sizes crtc.base = 0)
    (hv2 : amdgpu_dm_verify_lut3d_size caps crtc.base = 0) :
    (amdgpu_dm_update_crtc_color_mgmt caps rom crtc stream).r = 0 ∧
    (amdgpu_dm_update_crtc_color_mgmt caps rom crtc stream).crtc.cm_is_degamma_srgb
      = true ∧
    (amdgpu_dm_update_crtc_color_mgmt caps rom crtc stream).stream.out_transfer_func
      = (__set_legacy_tf
          { stream.out_transfer_func with
              type := TfType.distributed_points, tf := .srgb }
          g g.length rom).2 ∧
    (amdgpu_dm_update_crtc_color_mgmt caps rom crtc
      stream).stream.out_transfer_func.type = TfType.distributed_points ∧
    (amdgpu_dm_update_crtc_color_mgmt caps rom crtc
      stream).stream.out_transfer_func.tf = DcTransferFuncPredefined.srgb := by
  have hrf : ∀ f l n, (__set_legacy_tf f l n rom).1 = 0 := fun f l n => rfl
  unfold amdgpu_dm_update_crtc_color_mgmt
  rw [hv1, hv2]
  simp only [hg, hlen, __extract_blob_lut, update_crtc_ctm_tail_r,
    update_crtc_ctm_tail_out_tf, update_crtc_ctm_tail_srgb, hrf]
  norm_num [__set_legacy_tf, mod_color_calculate_regamma_params]
  simp [update_crtc_ctm_tail_r, update_crtc_ctm_tail_out_tf,
    update_crtc_ctm_tail_srgb, __set_legacy_tf,
    mod_color_calculate_regamma_params, hlen]

/-- A 256-entry (legacy-size) gamma LUT. -/
def lut_256 : List DrmColorLut := List.replicate 256 ⟨0, 0, 0⟩

/-- A CRTC state with a legacy-size gamma LUT and a non-sRGB requested curve
(PQ), to exhibit that the requested curve is ignored in legacy mode. -/
def crtc_c3 : DmCrtcState :=
  { base :=
      { degamma_lut := none, ctm := none, gamma_lut := some lut_256
        shaper_lut := none, lut3d := none, regamma_tf := .pq }
    cm_has_degamma := false, cm_is_degamma_srgb := false }

set_option maxRecDepth 10000 in
/-- C3 witness: the legacy-mode behaviour at a concrete 256-entry gamma LUT
with PQ requested. -/
theorem claim_c3_witness :
    crtc_c3.base.gamma_lut = some lut_256 ∧
    lut_256.length = MAX_COLOR_LEGACY_LUT_ENTRIES ∧
    amdgpu_dm_verify_lut_sizes crtc_c3.base = 0 ∧
    amdgpu_dm_verify_lut3d_size ⟨0⟩ crtc_c3.base = 0 ∧
    ((amdgpu_dm_update_crtc_color_mgmt ⟨0⟩ true crtc_c3 stream_w).r = 0 ∧
      (amdgpu_dm_update_crtc_color_mgmt ⟨0⟩ true crtc_c3
        stream_w).crtc.cm_is_degamma_srgb = true ∧
      (amdgpu_dm_update_crtc_color_mgmt ⟨0⟩ true crtc_c3
        stream_w).stream.out_transfer_func
        = (__set_legacy_tf
            { stream_w.out_transfer_func with
                type := TfType.distributed_points, tf := .srgb }
            lut_256 lut_256.length true).2 ∧
      (amdgpu_dm_update_crtc_color_mgmt ⟨0⟩ true crtc_c3
        stream_w).stream.out_transfer_func.type = TfType.distributed_points ∧
      (amdgpu_dm_update_crtc_color_mgmt ⟨0⟩ true crtc_c3
        stream_w).stream.out_transfer_func.tf = DcTransferFuncPredefined.srgb) :=
  ⟨rfl, by decide, by decide, by decide,
   claim_c3_legacy_regamma ⟨0⟩ true crtc_c3 stream_w lut_256 rfl (by decide)
     (by decide) (by decide)⟩

theorem update_crtc_ctm_tail_matrix (crtc : DmCrtcState) (stream : DcStreamState)
    (hd : Bool) (m : List Nat) (hm : crtc.base.ctm = some m) :
    (update_crtc_ctm_tail crtc stream hd).stream.gamut_remap_matrix.matrix =
      __drm_ctm_to_dc_matrix m := by
  simp [update_crtc_ctm_tail, hm]

theorem update_crtc_result_shape (caps : DcColorCaps) (rom : Bool)
    (crtc : DmCrtcState) (stream : DcStreamState) :
    (amdgpu_dm_update_crtc_color_mgmt caps rom crtc stream).r ≠ 0 ∨
    ((amdgpu_dm_update_crtc_color_mgmt caps rom crtc
        stream).stream.csc_color_matrix.enable_adjustment = false ∧
      (amdgpu_dm_update_crtc_color_mgmt caps rom crtc
        stream).stream.gamut_remap_matrix.enable_remap = crtc.base.ctm.isSome ∧
      (∀ m, crtc.base.ctm = some m →
        (amdgpu_dm_update_crtc_color_mgmt caps rom crtc
          stream).stream.gamut_remap_matrix.matrix = __drm_ctm_to_dc_matrix m)) := by
  unfold amdgpu_dm_update_crtc_color_mgmt
  dsimp only
  repeat' split
  all_goals
    first
      | (left; assumption)
      | (right
         exact ⟨update_crtc_ctm_tail_csc _ _ _, update_crtc_ctm_tail_remap _ _ _,
           fun m hm => update_crtc_ctm_tail_matrix _ _ _ m hm⟩)

/-- C10: after every successful orchestrator run the secondary adjustment
stage is disabled; the gamut-remap stage is enabled exactly when a CTM was
supplied, in which case the converted matrix is programmed. -/
theorem claim_c10_ctm_adjustment (caps : DcColorCaps) (rom : Bool)
    (crtc : DmCrtcState) (stream : DcStreamState)
    (hr : (amdgpu_dm_update_crtc_color_mgmt caps rom crtc stream).r = 0) :
    (amdgpu_dm_update_crtc_color_mgmt caps rom crtc
      stream).stream.csc_color_matrix.enable_adjustment = false ∧
    (amdgpu_dm_update_crtc_color_mgmt caps rom crtc
      stream).stream.gamut_remap_matrix.enable_remap = crtc.base.ctm.isSome ∧
    (∀ m, crtc.base.ctm = some m →
      (amdgpu_dm_update_crtc_color_mgmt caps rom crtc
        stream).stream.gamut_remap_matrix.matrix = __drm_ctm_to_dc_matrix m) := by
  rcases update_crtc_result_shape caps rom crtc stream with h | h
  · exact absurd hr h
  · exact h

/-- A CRTC state supplying only a CTM (a non-identity one: the (0,0)
coefficient is -1 in sign-magnitude form). -/
def crtc_c10 : DmCrtcState :=
  { base :=
      { degamma_lut := none, ctm := some [2 ^ 63 + 2 ^ 32, 0, 0, 0, 2 ^ 32, 0, 0, 0, 2 ^ 32]
        gamma_lut := none, shaper_lut := none, lut3d := none, regamma_tf := .default }
    cm_has_degamma := false, cm_is_degamma_srgb := false }

/-- C10 witness: a successful run with a CTM supplied ends with the
adjustment stage disabled, remap enabled and the converted matrix (whose
first entry is the negated fixed-point one) in place. -/
theorem claim_c10_witness :
    (amdgpu_dm_update_crtc_color_mgmt ⟨0⟩ false crtc_c10 stream_w).r = 0 ∧
    ((amdgpu_dm_update_crtc_color_mgmt ⟨0⟩ false crtc_c10
        stream_w).stream.csc_color_matrix.enable_adjustment = false ∧
      (amdgpu_dm_update_crtc_color_mgmt ⟨0⟩ false crtc_c10
        stream_w).stream.gamut_remap_matrix.enable_remap = crtc_c10.base.ctm.isSome ∧
      (∀ m, crtc_c10.base.ctm = some m →
        (amdgpu_dm_update_crtc_color_mgmt ⟨0⟩ false crtc_c10
          stream_w).stream.gamut_remap_matrix.matrix = __drm_ctm_to_dc_matrix m)) :=
  ⟨by decide, claim_c10_ctm_adjustment ⟨0⟩ false crtc_c10 stream_w (by decide)⟩

theorem verify3d_zero_facts (caps : DcColorCaps) (st : DrmCrtcState)
    (h : amdgpu_dm_verify_lut3d_size caps st = 0) :
    (∀ l, st.shaper_lut = some l →
      l.length = amdgpu_dm_get_lut3d_size caps MAX_COLOR_LUT_ENTRIES) ∧
    (∀ l, st.lut3d = some l →
      l.length = amdgpu_dm_get_lut3d_size caps MAX_COLOR_3DLUT_ENTRIES) := by
  unfold amdgpu_dm_verify_lut3d_size at h
  dsimp only at h
  split at h
  · norm_num [EINVAL] at h
  · split at h
    · norm_num [EINVAL] at h
    · rename_i hc1 hc2
      push_neg at hc1 hc2
      constructor <;> intro l hl
      · have hx := hc1
        simp [__extract_blob_lut, hl] at hx
        exact hx
      · have hx := hc2
        simp [__extract_blob_lut, hl] at hx
        exact hx

/-- C1 (amended): in atomic mode with a 3D LUT blob supplied and 3D LUTs
supported by the hardware, the paired resource is acquired and both the 3D
LUT stage (present, initialized, tetrahedral, 12-bit) and the shaper stage
(distributed points) are built only when the caller also supplied a shaper
LUT; when the effective shaper size is 0 (no shaper LUT supplied) the pair is
not acquired - it is released if held - and afterwards both the 3D LUT and
the shaper references are absent, with the run still succeeding. -/
theorem claim_c1_lut3d_needs_shaper (caps : DcColorCaps) (rom : Bool)
    (crtc : DmCrtcState) (stream : DcStreamState) (l3 : List DrmColorLut)
    (h3 : crtc.base.lut3d = some l3)
    (hcaps : caps.num_3dluts ≠ 0)
    (hv1 : amdgpu_dm_verify_lut_sizes crtc.base = 0)
    (hv2 : amdgpu_dm_verify_lut3d_size caps crtc.base = 0)
    (hleg : (__extract_blob_lut crtc.base.gamma_lut).2 ≠ MAX_COLOR_LEGACY_LUT_ENTRIES)
    (hinv : stream.lut3d_func.isSome = stream.func_shaper.isSome) :
    (crtc.base.shaper_lut = none →
      (amdgpu_dm_update_crtc_color_mgmt caps rom crtc stream).r = 0 ∧
      (amdgpu_dm_update_crtc_color_mgmt caps rom crtc stream).stream.lut3d_func
        = none ∧
      (amdgpu_dm_update_crtc_color_mgmt caps rom crtc stream).stream.func_shaper
        = none) ∧
    (∀ sl, crtc.base.shaper_lut = some sl →
      (amdgpu_dm_update_crtc_color_mgmt caps rom crtc stream).r = 0 ∧
      (∃ d, (amdgpu_dm_update_crtc_color_mgmt caps rom crtc
          stream).stream.lut3d_func = some d ∧ d.initialized = true ∧
        d.use_12bits = true ∧ d.use_tetrahedral_9 = false) ∧
      (∃ f, (amdgpu_dm_update_crtc_color_mgmt caps rom crtc
          stream).stream.func_shaper = some f ∧
        f.type = TfType.distributed_points)) := by
  have hl3 : l3.length = MAX_COLOR_3DLUT_ENTRIES := by
    rw [(verify3d_zero_facts caps crtc.base hv2).2 l3 h3]
    simp [amdgpu_dm_get_lut3d_size, hcaps]
  have hl3ne : l3.length ≠ 0 := by
    rw [hl3]; norm_num [MAX_COLOR_3DLUT_ENTRIES]
  have h3e : __extract_blob_lut crtc.base.lut3d = (some l3, l3.length) := by
    simp [__extract_blob_lut, h3]
  constructor
  · intro hsl
    have hse : __extract_blob_lut crtc.base.shaper_lut = (none, 0) := by
      simp [__extract_blob_lut, hsl]
    have hs := shaper3d_release stream [] 0 l3 l3.length hinv (Or.inl rfl)
    unfold amdgpu_dm_update_crtc_color_mgmt
    rw [hv1, hv2]
    simp only [h3e, hse, if_neg hleg]
    norm_num
    simp [hs.1, hs.2.1, hs.2.2, update_crtc_ctm_tail_r, update_crtc_ctm_tail_lut3d,
      update_crtc_ctm_tail_shaper, amdgpu_dm_set_atomic_regamma_r,
      amdgpu_dm_set_atomic_regamma_lut3d, amdgpu_dm_set_atomic_regamma_shaper]
  · intro sl hsl
    have hslen : sl.length = MAX_COLOR_LUT_ENTRIES := by
      rw [(verify3d_zero_facts caps crtc.base hv2).1 sl hsl]
      simp [amdgpu_dm_get_lut3d_size, hcaps]
    have hslne : sl.length ≠ 0 := by
      rw [hslen]; norm_num [MAX_COLOR_LUT_ENTRIES]
    have hse : __extract_blob_lut crtc.base.shaper_lut = (some sl, sl.length) := by
      simp [__extract_blob_lut, hsl]
    have ha := shaper3d_acquire stream sl sl.length l3 l3.length hinv hslne hl3ne
    unfold amdgpu_dm_update_crtc_color_mgmt
    rw [hv1, hv2]
    simp only [h3e, hse, if_neg hleg]
    norm_num
    simp [ha.1, update_crtc_ctm_tail_r, update_crtc_ctm_tail_lut3d,
      update_crtc_ctm_tail_shaper, amdgpu_dm_set_atomic_regamma_r,
      amdgpu_dm_set_atomic_regamma_lut3d, amdgpu_dm_set_atomic_regamma_shaper]
    exact ⟨ha.2.1, ha.2.2.imp fun f hf => ⟨hf.1, hf.2.1⟩⟩

/-- A full-size (4096-entry) shaper LUT. -/
def lut_4096 : List DrmColorLut := List.replicate 4096 ⟨0, 0, 0⟩

/-- A full-size (4913-entry) 3D LUT. -/
def lut3d_4913 : List DrmColorLut := List.replicate 4913 ⟨0, 0, 0⟩

theorem lut_4096_length : lut_4096.length = MAX_COLOR_LUT_ENTRIES := by
  unfold lut_4096 MAX_COLOR_LUT_ENTRIES
  exact List.length_replicate _ _

theorem lut3d_4913_length : lut3d_4913.length = MAX_COLOR_3DLUT_ENTRIES := by
  unfold lut3d_4913 MAX_COLOR_3DLUT_ENTRIES
  exact List.length_replicate _ _

/-- A CRTC state supplying a 3D LUT but no shaper LUT (atomic mode). -/
def crtc_c1 : DmCrtcState :=
  { base :=
      { degamma_lut := none, ctm := none, gamma_lut := none
        shaper_lut := none, lut3d := some lut3d_4913, regamma_tf := .default }
    cm_has_degamma := false, cm_is_degamma_srgb := false }

/-- C1: counterexample.  With a 3D LUT supplied, effective shaper size 0 and
3D LUT hardware available, the claim asserts the 3D LUT stage is built
(active, initialized) and the shaper stage set to bypass; instead the run
succeeds with both the 3D LUT reference and the shaper reference absent -
`acquire = drm_shaper_size && drm_lut3d_size` is false, so the pair is never
acquired and `amdgpu_dm_atomic_shaper_lut3d` returns before building
anything. -/
theorem claim_c1_counterexample :
    (amdgpu_dm_update_crtc_color_mgmt ⟨1⟩ false crtc_c1 stream_w).r = 0 ∧
    (amdgpu_dm_update_crtc_color_mgmt ⟨1⟩ false crtc_c1
      stream_w).stream.lut3d_func = none ∧
    (amdgpu_dm_update_crtc_color_mgmt ⟨1⟩ false crtc_c1
      stream_w).stream.func_shaper = none := by
  have hinv : stream_w.lut3d_func.isSome = stream_w.func_shaper.isSome := rfl
  have hs := shaper3d_release stream_w [] 0 lut3d_4913 lut3d_4913.length hinv
    (Or.inl rfl)
  have hv1 : amdgpu_dm_verify_lut_sizes crtc_c1.base = 0 := rfl
  have hv2 : amdgpu_dm_verify_lut3d_size ⟨1⟩ crtc_c1.base = 0 := by
    simp [amdgpu_dm_verify_lut3d_size, amdgpu_dm_get_lut3d_size,
      __extract_blob_lut, crtc_c1, lut3d_4913_length]
  have h3e : __extract_blob_lut crtc_c1.base.lut3d =
      (some lut3d_4913, lut3d_4913.length) := rfl
  have hse : __extract_blob_lut crtc_c1.base.shaper_lut = (none, 0) := rfl
  have hleg : (__extract_blob_lut crtc_c1.base.gamma_lut).2 ≠
      MAX_COLOR_LEGACY_LUT_ENTRIES := by
    norm_num [crtc_c1, __extract_blob_lut, MAX_COLOR_LEGACY_LUT_ENTRIES]
  unfold amdgpu_dm_update_crtc_color_mgmt
  rw [hv1, hv2]
  simp only [h3e, hse, if_neg hleg]
  norm_num
  simp [hs.1, hs.2.1, hs.2.2, update_crtc_ctm_tail_r, update_crtc_ctm_tail_lut3d,
    update_crtc_ctm_tail_shaper, amdgpu_dm_set_atomic_regamma_r,
    amdgpu_dm_set_atomic_regamma_lut3d, amdgpu_dm_set_atomic_regamma_shaper]

/-- A CRTC state supplying both a shaper LUT and a 3D LUT (atomic mode). -/
def crtc_c1b : DmCrtcState :=
  { base :=
      { degamma_lut := none, ctm := none, gamma_lut := none
        shaper_lut := some lut_4096, lut3d := some lut3d_4913
        regamma_tf := .default }
    cm_has_degamma := false, cm_is_degamma_srgb := false }

/-- C1 witness: with both a shaper LUT and a 3D LUT supplied, the amended
claim's acquire-and-build conclusion holds at a concrete state. -/
theorem claim_c1_witness :
    crtc_c1b.base.lut3d = some lut3d_4913 ∧
    (⟨1⟩ : DcColorCaps).num_3dluts ≠ 0 ∧
    amdgpu_dm_verify_lut_sizes crtc_c1b.base = 0 ∧
    amdgpu_dm_verify_lut3d_size ⟨1⟩ crtc_c1b.base = 0 ∧
    (__extract_blob_lut crtc_c1b.base.gamma_lut).2 ≠ MAX_COLOR_LEGACY_LUT_ENTRIES ∧
    stream_w.lut3d_func.isSome = stream_w.func_shaper.isSome ∧
    crtc_c1b.base.shaper_lut = some lut_4096 ∧
    ((amdgpu_dm_update_crtc_color_mgmt ⟨1⟩ false crtc_c1b stream_w).r = 0 ∧
      (∃ d, (amdgpu_dm_update_crtc_color_mgmt ⟨1⟩ false crtc_c1b
          stream_w).stream.lut3d_func = some d ∧ d.initialized = true ∧
        d.use_12bits = true ∧ d.use_tetrahedral_9 = false) ∧
      (∃ f, (amdgpu_dm_update_crtc_color_mgmt ⟨1⟩ false crtc_c1b
          stream_w).stream.func_shaper = some f ∧
        f.type = TfType.distributed_points)) :=
  ⟨rfl, by decide, rfl,
   by simp [amdgpu_dm_verify_lut3d_size, amdgpu_dm_get_lut3d_size,
     __extract_blob_lut, crtc_c1b, lut_4096_length, lut3d_4913_length],
   by norm_num [crtc_c1b, __extract_blob_lut, MAX_COLOR_LEGACY_LUT_ENTRIES],
   rfl, rfl,
   (claim_c1_lut3d_needs_shaper ⟨1⟩ false crtc_c1b stream_w lut3d_4913 rfl
     (by decide) rfl
     (by simp [amdgpu_dm_verify_lut3d_size, amdgpu_dm_get_lut3d_size,
       __extract_blob_lut, crtc_c1b, lut_4096_length, lut3d_4913_length])
     (by norm_num [crtc_c1b, __extract_blob_lut, MAX_COLOR_LEGACY_LUT_ENTRIES])
     rfl).2 lut_4096 rfl⟩

theorem shaper3d_inv (stream : DcStreamState) (sl : List DrmColorLut) (ss : Nat)
    (l3 : List DrmColorLut) (ls : Nat)
    (hinv : stream.lut3d_func.isSome = stream.func_shaper.isSome) :
    (amdgpu_dm_atomic_shaper_lut3d stream sl ss l3 ls).2.lut3d_func.isSome =
      (amdgpu_dm_atomic_shaper_lut3d stream sl ss l3 ls).2.func_shaper.isSome := by
  by_cases hacq : ss ≠ 0 ∧ ls ≠ 0
  · obtain ⟨-, hd, hf⟩ := shaper3d_acquire stream sl ss l3 ls hinv hacq.1 hacq.2
    obtain ⟨d, hd1, -⟩ := hd
    obtain ⟨f, hf1, -⟩ := hf
    rw [hd1, hf1]
    rfl
  · have h0 : ss = 0 ∨ ls = 0 := by tauto
    obtain ⟨-, h1, h2⟩ := shaper3d_release stream sl ss l3 ls hinv h0
    rw [h1, h2]
    rfl

theorem update_preserves_pair_inv (caps : DcColorCaps) (rom : Bool)
    (crtc : DmCrtcState) (stream : DcStreamState)
    (hinv : stream.lut3d_func.isSome = stream.func_shaper.isSome) :
    (amdgpu_dm_update_crtc_color_mgmt caps rom crtc stream).stream.lut3d_func.isSome
      = (amdgpu_dm_update_crtc_color_mgmt caps rom crtc
          stream).stream.func_shaper.isSome := by
  unfold amdgpu_dm_update_crtc_color_mgmt
  dsimp only
  repeat' split
  all_goals
    simp only [update_crtc_ctm_tail_lut3d, update_crtc_ctm_tail_shaper,
      amdgpu_dm_set_atomic_regamma_lut3d, amdgpu_dm_set_atomic_regamma_shaper]
  all_goals first
    | exact hinv
    | exact shaper3d_inv _ _ _ _ _ hinv

/-- C4: in atomic mode with no 3D LUT requested while the paired resource is
held (both objects present), the orchestrator releases the pair: the run
succeeds and afterwards both the 3D LUT reference and the shaper reference
are absent.  Moreover every orchestrator run preserves the
both-present-or-both-absent pairing invariant. -/
theorem claim_c4_pair_release (caps : DcColorCaps) (rom : Bool)
    (crtc : DmCrtcState) (stream : DcStreamState) (d : Dc3dLut)
    (f : DcTransferFunc)
    (h3 : crtc.base.lut3d = none)
    (hd : stream.lut3d_func = some d)
    (hf : stream.func_shaper = some f)
    (hv1 : amdgpu_dm_verify_lut_sizes crtc.base = 0)
    (hv2 : amdgpu_dm_verify_lut3d_size caps crtc.base = 0)
    (hleg : (__extract_blob_lut crtc.base.gamma_lut).2 ≠ MAX_COLOR_LEGACY_LUT_ENTRIES) :
    (amdgpu_dm_update_crtc_color_mgmt caps rom crtc stream).r = 0 ∧
    (amdgpu_dm_update_crtc_color_mgmt caps rom crtc stream).stream.lut3d_func
      = none ∧
    (amdgpu_dm_update_crtc_color_mgmt caps rom crtc stream).stream.func_shaper
      = none ∧
    (∀ caps2 rom2 crtc2 stream2,
      stream2.lut3d_func.isSome = stream2.func_shaper.isSome →
      (amdgpu_dm_update_crtc_color_mgmt caps2 rom2 crtc2
        stream2).stream.lut3d_func.isSome =
        (amdgpu_dm_update_crtc_color_mgmt caps2 rom2 crtc2
          stream2).stream.func_shaper.isSome) := by
  have hinv : stream.lut3d_func.isSome = stream.func_shaper.isSome := by
    rw [hd, hf]
    rfl
  have h3e : __extract_blob_lut crtc.base.lut3d = (none, 0) := by
    simp [__extract_blob_lut, h3]
  have hs := shaper3d_release stream [] 0 [] 0 hinv (Or.inl rfl)
  refine ⟨?_, ?_, ?_, fun caps2 rom2 crtc2 stream2 h =>
    update_preserves_pair_inv caps2 rom2 crtc2 stream2 h⟩ <;>
  · unfold amdgpu_dm_update_crtc_color_mgmt
    rw [hv1, hv2]
    simp only [h3e, if_neg hleg]
    norm_num
    simp [hs.1, hs.2.1, hs.2.2, update_crtc_ctm_tail_r, update_crtc_ctm_tail_lut3d,
      update_crtc_ctm_tail_shaper, amdgpu_dm_set_atomic_regamma_r,
      amdgpu_dm_set_atomic_regamma_lut3d, amdgpu_dm_set_atomic_regamma_shaper]

/-- A stream currently holding the 3D-LUT/shaper pair. -/
def stream_c4 : DcStreamState :=
  { stream_w with lut3d_func := some pool_lut3d
                  func_shaper := some pool_shaper_func }

/-- A CRTC state requesting neither a 3D LUT nor a shaper (atomic mode). -/
def crtc_c4 : DmCrtcState :=
  { base :=
      { degamma_lut := none, ctm := none, gamma_lut := none
        shaper_lut := none, lut3d := none, regamma_tf := .default }
    cm_has_degamma := false, cm_is_degamma_srgb := false }

/-- C4 witness: a held pair is released by a commit that requests no 3D LUT. -/
theorem claim_c4_witness :
    crtc_c4.base.lut3d = none ∧
    stream_c4.lut3d_func = some pool_lut3d ∧
    stream_c4.func_shaper = some pool_shaper_func ∧
    amdgpu_dm_verify_lut_sizes crtc_c4.base = 0 ∧
    amdgpu_dm_verify_lut3d_size ⟨1⟩ crtc_c4.base = 0 ∧
    (__extract_blob_lut crtc_c4.base.gamma_lut).2 ≠ MAX_COLOR_LEGACY_LUT_ENTRIES ∧
    ((amdgpu_dm_update_crtc_color_mgmt ⟨1⟩ false crtc_c4 stream_c4).r = 0 ∧
      (amdgpu_dm_update_crtc_color_mgmt ⟨1⟩ false crtc_c4
        stream_c4).stream.lut3d_func = none ∧
      (amdgpu_dm_update_crtc_color_mgmt ⟨1⟩ false crtc_c4
        stream_c4).stream.func_shaper = none ∧
      (∀ caps2 rom2 crtc2 stream2,
        stream2.lut3d_func.isSome = stream2.func_shaper.isSome →
        (amdgpu_dm_update_crtc_color_mgmt caps2 rom2 crtc2
          stream2).stream.lut3d_func.isSome =
          (amdgpu_dm_update_crtc_color_mgmt caps2 rom2 crtc2
            stream2).stream.func_shaper.isSome)) :=
  ⟨rfl, rfl, rfl, by decide, by decide, by decide,
   claim_c4_pair_release ⟨1⟩ false crtc_c4 stream_c4 pool_lut3d pool_shaper_func
     rfl rfl rfl (by decide) (by decide) (by decide)⟩

theorem shaper3d_r (stream : DcStreamState) (sl : List DrmColorLut) (ss : Nat)
    (l3 : List DrmColorLut) (ls : Nat)
    (hinv : stream.lut3d_func.isSome = stream.func_shaper.isSome) :
    (amdgpu_dm_atomic_shaper_lut3d stream sl ss l3 ls).1 = 0 := by
  by_cases hacq : ss ≠ 0 ∧ ls ≠ 0
  · exact (shaper3d_acquire stream sl ss l3 ls hinv hacq.1 hacq.2).1
  · exact (shaper3d_release stream sl ss l3 ls hinv (by tauto)).1

theorem set_atomic_regamma_bypass (stream : DcStreamState)
    (lut : List DrmColorLut) (size : Nat) (rom : Bool)
    (tf : DcTransferFuncPredefined) (h : ¬(size ≠ 0 ∨ tf ≠ .linear)) :
    (amdgpu_dm_set_atomic_regamma stream lut size rom tf).2.out_transfer_func =
      { stream.out_transfer_func with type := TfType.bypass, tf := .linear } := by
  unfold amdgpu_dm_set_atomic_regamma
  rw [if_neg h]

theorem set_atomic_regamma_build (stream : DcStreamState)
    (lut : List DrmColorLut) (size : Nat) (rom : Bool)
    (tf : DcTransferFuncPredefined) (h : size ≠ 0 ∨ tf ≠ .linear) :
    (amdgpu_dm_set_atomic_regamma stream lut size rom tf).2.out_transfer_func =
      (__set_output_tf
        { stream.out_transfer_func with
            type := TfType.distributed_points, tf := tf
            sdr_ref_white_level := 80 }
        lut size rom).2 := by
  unfold amdgpu_dm_set_atomic_regamma
  rw [if_pos h]

/-- C5: in atomic mode the effective output-regamma size is 0 unless the
supplied regamma LUT is non-linear per the detector; with effective size 0
and a linear resolved transfer function the output stage is bypass, and
otherwise it is built as distributed points (SDR white level 80) through the
modern output builder `__set_output_tf` at the effective size. -/
theorem claim_c5_atomic_regamma (caps : DcColorCaps) (rom : Bool)
    (crtc : DmCrtcState) (stream : DcStreamState)
    (hv1 : amdgpu_dm_verify_lut_sizes crtc.base = 0)
    (hv2 : amdgpu_dm_verify_lut3d_size caps crtc.base = 0)
    (hleg : (__extract_blob_lut crtc.base.gamma_lut).2 ≠ MAX_COLOR_LEGACY_LUT_ENTRIES)
    (hinv : stream.lut3d_func.isSome = stream.func_shaper.isSome) :
    (amdgpu_dm_update_crtc_color_mgmt caps rom crtc stream).r = 0 ∧
    (((if ((__extract_blob_lut crtc.base.gamma_lut).1.isSome &&
          !__is_lut_linear ((__extract_blob_lut crtc.base.gamma_lut).1.getD [])
            (__extract_blob_lut crtc.base.gamma_lut).2 : Bool)
        then (__extract_blob_lut crtc.base.gamma_lut).2 else 0) = 0 ∧
      drm_tf_to_dc_tf crtc.base.regamma_tf = .linear) →
      (amdgpu_dm_update_crtc_color_mgmt caps rom crtc
        stream).stream.out_transfer_func.type = TfType.bypass ∧
      (amdgpu_dm_update_crtc_color_mgmt caps rom crtc
        stream).stream.out_transfer_func.tf = DcTransferFuncPredefined.linear) ∧
    (¬((if ((__extract_blob_lut crtc.base.gamma_lut).1.isSome &&
          !__is_lut_linear ((__extract_blob_lut crtc.base.gamma_lut).1.getD [])
            (__extract_blob_lut crtc.base.gamma_lut).2 : Bool)
        then (__extract_blob_lut crtc.base.gamma_lut).2 else 0) = 0 ∧
      drm_tf_to_dc_tf crtc.base.regamma_tf = .linear) →
      (amdgpu_dm_update_crtc_color_mgmt caps rom crtc
        stream).stream.out_transfer_func =
        (__set_output_tf
          { stream.out_transfer_func with
              type := TfType.distributed_points
              tf := drm_tf_to_dc_tf crtc.base.regamma_tf
              sdr_ref_white_level := 80 }
          ((__extract_blob_lut crtc.base.gamma_lut).1.getD [])
          (if ((__extract_blob_lut crtc.base.gamma_lut).1.isSome &&
              !__is_lut_linear ((__extract_blob_lut crtc.base.gamma_lut).1.getD [])
                (__extract_blob_lut crtc.base.gamma_lut).2 : Bool)
            then (__extract_blob_lut crtc.base.gamma_lut).2 else 0) rom).2 ∧
      (amdgpu_dm_update_crtc_color_mgmt caps rom crtc
        stream).stream.out_transfer_func.type = TfType.distributed_points ∧
      (amdgpu_dm_update_crtc_color_mgmt caps rom crtc
        stream).stream.out_transfer_func.tf =
        drm_tf_to_dc_tf crtc.base.regamma_tf ∧
      (amdgpu_dm_update_crtc_color_mgmt caps rom crtc
        stream).stream.out_transfer_func.sdr_ref_white_level = 80) := by
  have h00 : ¬((0 : Int) ≠ 0) := by norm_num
  unfold amdgpu_dm_update_crtc_color_mgmt
  rw [hv1, hv2]
  simp only [if_neg hleg, if_neg h00]
  by_cases hR : ((__extract_blob_lut crtc.base.gamma_lut).1.isSome &&
      !__is_lut_linear ((__extract_blob_lut crtc.base.gamma_lut).1.getD [])
        (__extract_blob_lut crtc.base.gamma_lut).2) = true
  · have hszne : (__extract_blob_lut crtc.base.gamma_lut).2 ≠ 0 := by
      intro h0
      rw [h0] at hR
      simp [__is_lut_linear] at hR
    rw [if_pos hR]
    by_cases h3 : ((__extract_blob_lut crtc.base.lut3d).1.isSome) = true <;>
      [rw [if_pos h3]; rw [if_neg h3]] <;>
    · rw [shaper3d_r _ _ _ _ _ hinv]
      simp only [if_neg h00]
      rw [amdgpu_dm_set_atomic_regamma_r]
      simp only [if_neg h00]
      refine ⟨update_crtc_ctm_tail_r _ _ _, fun hc => absurd hc.1 hszne, fun _ => ?_⟩
      rw [update_crtc_ctm_tail_out_tf,
        set_atomic_regamma_build _
          ((__extract_blob_lut crtc.base.gamma_lut).1.getD [])
          ((__extract_blob_lut crtc.base.gamma_lut).2) rom
          (drm_tf_to_dc_tf crtc.base.regamma_tf) (Or.inl hszne),
        shaper3d_out_tf]
      exact ⟨rfl, by rw [__set_output_tf_type], by rw [__set_output_tf_tf],
        by rw [__set_output_tf_white]⟩
  · rw [if_neg hR]
    by_cases h3 : ((__extract_blob_lut crtc.base.lut3d).1.isSome) = true <;>
      [rw [if_pos h3]; rw [if_neg h3]] <;>
    · rw [shaper3d_r _ _ _ _ _ hinv]
      simp only [if_neg h00]
      rw [amdgpu_dm_set_atomic_regamma_r]
      simp only [if_neg h00]
      by_cases htf : drm_tf_to_dc_tf crtc.base.regamma_tf = .linear
      · refine ⟨update_crtc_ctm_tail_r _ _ _, fun _ => ?_,
          fun hc => absurd ⟨by trivial, htf⟩ hc⟩
        rw [update_crtc_ctm_tail_out_tf,
          set_atomic_regamma_bypass _
            ((__extract_blob_lut crtc.base.gamma_lut).1.getD []) 0 rom
            (drm_tf_to_dc_tf crtc.base.regamma_tf) (by simp [htf]),
          shaper3d_out_tf]
        exact ⟨rfl, rfl⟩
      · refine ⟨update_crtc_ctm_tail_r _ _ _, fun hc => absurd hc.2 htf,
          fun _ => ?_⟩
        rw [update_crtc_ctm_tail_out_tf,
          set_atomic_regamma_build _
            ((__extract_blob_lut crtc.base.gamma_lut).1.getD []) 0 rom
            (drm_tf_to_dc_tf crtc.base.regamma_tf) (Or.inr htf),
          shaper3d_out_tf]
        exact ⟨rfl, by rw [__set_output_tf_type], by rw [__set_output_tf_tf],
          by rw [__set_output_tf_white]⟩

/-- A CRTC state with a non-linear full-size (4096) regamma LUT. -/
def crtc_c5 : DmCrtcState :=
  { base :=
      { degamma_lut := none, ctm := none, gamma_lut := some lut_4096
        shaper_lut := none, lut3d := none, regamma_tf := .default }
    cm_has_degamma := false, cm_is_degamma_srgb := false }

/-- C5 witness: the atomic output-regamma description at a concrete state
with a non-linear 4096-entry regamma LUT. -/
theorem claim_c5_witness :
    amdgpu_dm_verify_lut_sizes crtc_c5.base = 0 ∧
    amdgpu_dm_verify_lut3d_size ⟨0⟩ crtc_c5.base = 0 ∧
    (__extract_blob_lut crtc_c5.base.gamma_lut).2 ≠ MAX_COLOR_LEGACY_LUT_ENTRIES ∧
    stream_w.lut3d_func.isSome = stream_w.func_shaper.isSome ∧
    ((amdgpu_dm_update_crtc_color_mgmt ⟨0⟩ false crtc_c5 stream_w).r = 0 ∧
    (((if ((__extract_blob_lut crtc_c5.base.gamma_lut).1.isSome &&
          !__is_lut_linear ((__extract_blob_lut crtc_c5.base.gamma_lut).1.getD [])
            (__extract_blob_lut crtc_c5.base.gamma_lut).2 : Bool)
        then (__extract_blob_lut crtc_c5.base.gamma_lut).2 else 0) = 0 ∧
      drm_tf_to_dc_tf crtc_c5.base.regamma_tf = .linear) →
      (amdgpu_dm_update_crtc_color_mgmt ⟨0⟩ false crtc_c5
        stream_w).stream.out_transfer_func.type = TfType.bypass ∧
      (amdgpu_dm_update_crtc_color_mgmt ⟨0⟩ false crtc_c5
        stream_w).stream.out_transfer_func.tf = DcTransferFuncPredefined.linear) ∧
    (¬((if ((__extract_blob_lut crtc_c5.base.gamma_lut).1.isSome &&
          !__is_lut_linear ((__extract_blob_lut crtc_c5.base.gamma_lut).1.getD [])
            (__extract_blob_lut crtc_c5.base.gamma_lut).2 : Bool)
        then (__extract_blob_lut crtc_c5.base.gamma_lut).2 else 0) = 0 ∧
      drm_tf_to_dc_tf crtc_c5.base.regamma_tf = .linear) →
      (amdgpu_dm_update_crtc_color_mgmt ⟨0⟩ false crtc_c5
        stream_w).stream.out_transfer_func =
        (__set_output_tf
          { stream_w.out_transfer_func with
              type := TfType.distributed_points
              tf := drm_tf_to_dc_tf crtc_c5.base.regamma_tf
              sdr_ref_white_level := 80 }
          ((__extract_blob_lut crtc_c5.base.gamma_lut).1.getD [])
          (if ((__extract_blob_lut crtc_c5.base.gamma_lut).1.isSome &&
              !__is_lut_linear ((__extract_blob_lut crtc_c5.base.gamma_lut).1.getD [])
                (__extract_blob_lut crtc_c5.base.gamma_lut).2 : Bool)
            then (__extract_blob_lut crtc_c5.base.gamma_lut).2 else 0) false).2 ∧
      (amdgpu_dm_update_crtc_color_mgmt ⟨0⟩ false crtc_c5
        stream_w).stream.out_transfer_func.type = TfType.distributed_points ∧
      (amdgpu_dm_update_crtc_color_mgmt ⟨0⟩ false crtc_c5
        stream_w).stream.out_transfer_func.tf =
        drm_tf_to_dc_tf crtc_c5.base.regamma_tf ∧
      (amdgpu_dm_update_crtc_color_mgmt ⟨0⟩ false crtc_c5
        stream_w).stream.out_transfer_func.sdr_ref_white_level = 80)) :=
  ⟨by simp [amdgpu_dm_verify_lut_sizes, __extract_blob_lut, crtc_c5,
     lut_4096_length],
   by decide,
   by norm_num [crtc_c5, __extract_blob_lut, lut_4096_length,
     MAX_COLOR_LUT_ENTRIES, MAX_COLOR_LEGACY_LUT_ENTRIES],
   rfl,
   claim_c5_atomic_regamma ⟨0⟩ false crtc_c5 stream_w
     (by simp [amdgpu_dm_verify_lut_sizes, __extract_blob_lut, crtc_c5,
       lut_4096_length])
     (by decide)
     (by norm_num [crtc_c5, __extract_blob_lut, lut_4096_length,
       MAX_COLOR_LUT_ENTRIES, MAX_COLOR_LEGACY_LUT_ENTRIES])
     rfl⟩

/-- C9: when the surface supplies no degamma LUT (or a linear one) and no
non-default requested curve, but the output state has `cm_has_degamma`, the
surface degamma stage reuses the CRTC degamma LUT through the input-degamma
builder as distributed points; its curve id is the format-appropriate base
curve (BT.709 for the 4:2:0 chroma-subsampled formats, sRGB otherwise) when
the output is in legacy-sRGB-degamma mode, and linear otherwise. -/
theorem claim_c9_plane_reuses_crtc_degamma (crtc : DmCrtcState)
    (plane : DrmPlaneState) (dcp : DcPlaneState) (dl : List DrmColorLut)
    (hlut : plane.degamma_lut = none ∨
      (∃ l, plane.degamma_lut = some l ∧ __is_lut_linear l l.length = true))
    (htf : plane.degamma_tf = .default)
    (hcm : crtc.cm_has_degamma = true)
    (hcl : crtc.base.degamma_lut = some dl) :
    (amdgpu_dm_update_plane_color_mgmt crtc plane dcp).1 = 0 ∧
    (amdgpu_dm_update_plane_color_mgmt crtc plane dcp).2.in_transfer_func =
      (__set_input_tf
        { dcp.in_transfer_func with
            type := TfType.distributed_points
            tf := if crtc.cm_is_degamma_srgb then
                (match dcp.format with
                 | .video_420_ycbcr => DcTransferFuncPredefined.bt709
                 | .video_420_ycrcb => DcTransferFuncPredefined.bt709
                 | _ => DcTransferFuncPredefined.srgb)
              else DcTransferFuncPredefined.linear }
        dl dl.length).2 ∧
    (amdgpu_dm_update_plane_color_mgmt crtc plane
      dcp).2.in_transfer_func.type = TfType.distributed_points ∧
    (amdgpu_dm_update_plane_color_mgmt crtc plane dcp).2.in_transfer_func.tf =
      (if crtc.cm_is_degamma_srgb then
          (match dcp.format with
           | .video_420_ycbcr => DcTransferFuncPredefined.bt709
           | .video_420_ycrcb => DcTransferFuncPredefined.bt709
           | _ => DcTransferFuncPredefined.srgb)
        else DcTransferFuncPredefined.linear) := by
  rcases hlut with h0 | ⟨l, h0, hlin⟩
  · unfold amdgpu_dm_update_plane_color_mgmt
    simp only [h0, htf, hcm, hcl, __extract_blob_lut]
    norm_num [__set_input_tf, mod_color_calculate_degamma_params]
  · unfold amdgpu_dm_update_plane_color_mgmt
    simp only [h0, htf, hcm, hcl, __extract_blob_lut]
    norm_num [hlin, __set_input_tf, mod_color_calculate_degamma_params]

/-- An output state in legacy-sRGB-degamma mode with an active degamma LUT. -/
def crtc_c9 : DmCrtcState :=
  { base :=
      { degamma_lut := some lut_4096, ctm := none, gamma_lut := none
        shaper_lut := none, lut3d := none, regamma_tf := .default }
    cm_has_degamma := true, cm_is_degamma_srgb := true }

/-- A surface supplying no degamma state of its own. -/
def plane_c9 : DrmPlaneState :=
  { degamma_lut := none, degamma_tf := .default, hdr_mult := 2 ^ 32 }

/-- A 4:2:0 chroma-subsampled DC surface. -/
def dcp_c9 : DcPlaneState :=
  { format := SurfacePixelFormat.video_420_ycbcr
    in_transfer_func :=
      { type := TfType.bypass, tf := .linear, sdr_ref_white_level := 0
        curve_calc := none }
    hdr_mult := 0 }

/-- C9 witness: a 4:2:0 surface with no plane degamma under a
legacy-sRGB-degamma output reuses the CRTC LUT with BT.709. -/
theorem claim_c9_witness :
    (plane_c9.degamma_lut = none ∨
      (∃ l, plane_c9.degamma_lut = some l ∧ __is_lut_linear l l.length = true)) ∧
    plane_c9.degamma_tf = .default ∧
    crtc_c9.cm_has_degamma = true ∧
    crtc_c9.base.degamma_lut = some lut_4096 ∧
    ((amdgpu_dm_update_plane_color_mgmt crtc_c9 plane_c9 dcp_c9).1 = 0 ∧
      (amdgpu_dm_update_plane_color_mgmt crtc_c9 plane_c9 dcp_c9).2.in_transfer_func =
        (__set_input_tf
          { dcp_c9.in_transfer_func with
              type := TfType.distributed_points
              tf := if crtc_c9.cm_is_degamma_srgb then
                  (match dcp_c9.format with
                   | .video_420_ycbcr => DcTransferFuncPredefined.bt709
                   | .video_420_ycrcb => DcTransferFuncPredefined.bt709
                   | _ => DcTransferFuncPredefined.srgb)
                else DcTransferFuncPredefined.linear }
          lut_4096 lut_4096.length).2 ∧
      (amdgpu_dm_update_plane_color_mgmt crtc_c9 plane_c9
        dcp_c9).2.in_transfer_func.type = TfType.distributed_points ∧
      (amdgpu_dm_update_plane_color_mgmt crtc_c9 plane_c9
        dcp_c9).2.in_transfer_func.tf =
        (if crtc_c9.cm_is_degamma_srgb then
            (match dcp_c9.format with
             | .video_420_ycbcr => DcTransferFuncPredefined.bt709
             | .video_420_ycrcb => DcTransferFuncPredefined.bt709
             | _ => DcTransferFuncPredefined.srgb)
          else DcTransferFuncPredefined.linear)) :=
  ⟨Or.inl rfl, rfl, rfl, rfl,
   claim_c9_plane_reuses_crtc_degamma crtc_c9 plane_c9 dcp_c9 lut_4096
     (Or.inl rfl) rfl rfl rfl⟩
